import Mathlib

/-! # Phoenix hexapod: PS2 control input (`src/PS2_controller.cpp`)

A shallow embedding of the PS2 input controller of the Lynxmotion Phoenix
firmware (A-Pod variant with mandible and tail).  The C++ translation unit
keeps its state in the global record `g_InControlState` and in a handful of
file-static variables; here that state is one record `State`, and every
function of the source is a pure function from `State` (and the values read
from the outside during the cycle) to `State`.

Conventions of the embedding:

* `byte` values (`ControlMode`, `SelectedLeg`, `GPSeq`, the stick bytes) are
  natural numbers; the source never drives them past 255.
* `int` arithmetic on the stick bytes is exact integer arithmetic (all the
  intermediate values lie within `-256 .. 256`), and C++ division is
  `Int.tdiv` (truncation toward zero).
* `g_BodyYOffset` is a `short`; the two compound assignments that can carry
  it out of range store through `toShort` (two's complement, 16 bits).  The
  sum `g_BodyYOffset + g_BodyYShift` of line 446 is an `int` expression and
  is taken exactly.
* The fields of `g_InControlState` are declared in `Hex_Globals.h`, which is
  not among the sources; the numeric ones are integers here, `SelectedLeg`
  (compared with 255) is a byte.
* `MSound`, `DBGSerial.write`, `GaitSelect` and `g_ServoDriver.GPStartSeq`
  act on the outside only and leave the variables of this file untouched, so
  they do not appear.
-/

namespace PS2Controller

/-! ## Constants of the source -/

def WALKMODE : Nat := 0
def TRANSLATEMODE : Nat := 1
def ROTATEMODE : Nat := 2
def SINGLELEGMODE : Nat := 3
def GPPLAYERMODE : Nat := 4

/-- The deadzone for the analog input from the remote. -/
def cTravelDeadZone : Int := 4

/-- How many times through the loop before the robot is shut off. -/
def MAXPS2ERRORCNT : Int := 5

/-- Modelled from the spec: the macro `MANDIBLE_INDEX` is declared in the
header `Hex_Globals.h`, which is not among the sources; the spec (and the
comment next to its use) give the mandible slot as leg index 6. -/
def MANDIBLE_INDEX : Nat := 6

/-- Build-time configuration taken from headers that are not among the
sources: whether `OPT_GPPLAYER` is defined, the number of gaits and the four
mandible closure limits. -/
structure Config where
  OPT_GPPLAYER : Bool
  NUM_GAITS : Int
  cMandLeftMAX1 : Int
  cMandLeftMIN1 : Int
  cMandRightMAX1 : Int
  cMandRightMIN1 : Int
  deriving DecidableEq, Repr

/-! ## Arithmetic of the target -/

/-- The Arduino macro `abs(x)`, `((x)>0?(x):-(x))`. -/
def arduinoAbs (x : Int) : Int := if x > 0 then x else -x

/-- The Arduino macro `max(a,b)`, `((a)>(b)?(a):(b))`. -/
def arduinoMax (a b : Int) : Int := if a > b then a else b

/-- Conversion of an `int` value to `short` on assignment (16 bits, two's
complement). -/
def toShort (v : Int) : Int := (v + 32768) % 65536 - 32768

/-! ## What a cycle reads from the outside -/

/-- The buttons of the PS2 controller that the source tests. -/
inductive PSB where
  | START | SELECT | L1 | L2 | R1 | R2 | R3
  | CIRCLE | CROSS | SQUARE | TRIANGLE
  | PAD_UP | PAD_DOWN | PAD_LEFT | PAD_RIGHT
  deriving DecidableEq, Repr

/-- Everything `ControlInput` obtains from its collaborators in one cycle:
the packet left by `ps2x.read_gamepad()` (mode byte `Analog(1)`, the four
stick bytes, the edge-triggered `ButtonPressed` and the level `Button`) and
the answer of `g_ServoDriver.FIsGPSeqActive()`. -/
structure Inputs where
  Analog1 : Nat
  PSS_LX : Nat
  PSS_LY : Nat
  PSS_RX : Nat
  PSS_RY : Nat
  ButtonPressed : PSB → Bool
  Button : PSB → Bool
  FIsGPSeqActive : Bool

/-- The validity test of the source: `(ps2x.Analog(1) & 0xf0) == 0x70`. -/
def analogModeOK (ps2x : Inputs) : Bool := (ps2x.Analog1 &&& 0xf0) == 0x70

/-- Stick byte minus the centre, as the `int` expression
`ps2x.Analog(..) - 128`. -/
def centred (b : Nat) : Int := (b : Int) - 128

/-! ## The state -/

structure COORD3D where
  x : Int
  y : Int
  z : Int
  deriving DecidableEq, Repr

structure COORD2D where
  x : Int
  y : Int
  deriving DecidableEq, Repr

/-- The fields of the global `g_InControlState` that this file reads or
writes. -/
structure INCONTROLSTATE where
  fHexOn : Bool
  BodyPos : COORD3D
  BodyRot1 : COORD3D
  TravelLength : COORD3D
  SelectedLeg : Nat
  BalanceMode : Bool
  SpeedControl : Int
  GaitType : Int
  LegLiftHeight : Int
  SLLeg : COORD3D
  fSLHold : Bool
  ManPos : COORD3D
  ManClos : COORD2D
  TailPos : COORD2D
  InputTimeDelay : Int
  deriving DecidableEq, Repr

/-- The global control state together with the file-static variables. -/
structure State where
  g_InControlState : INCONTROLSTATE
  g_BodyYOffset : Int
  g_sPS2ErrorCnt : Int
  g_BodyYShift : Int
  ControlMode : Nat
  DoubleHeightOn : Bool
  DoubleTravelOn : Bool
  WalkMethod : Bool
  GPSeq : Nat
  deriving DecidableEq, Repr

/-! ## `InputController::Init` -/

/-- `InputController::Init`: the assignments of lines 132-141. -/
def Init (s : State) : State :=
  { s with
    g_BodyYOffset := 65
    g_BodyYShift := 0
    g_sPS2ErrorCnt := 0
    ControlMode := WALKMODE
    DoubleHeightOn := false
    DoubleTravelOn := false
    WalkMethod := false
    g_InControlState.SpeedControl := 100 }

/-! ## `PS2TurnRobotOff` -/

/-- `PS2TurnRobotOff`, lines 461-477. -/
def PS2TurnRobotOff (s : State) : State :=
  { s with
    g_InControlState.BodyPos.x := 0
    g_InControlState.BodyPos.y := 0
    g_InControlState.BodyPos.z := 0
    g_InControlState.BodyRot1.x := 0
    g_InControlState.BodyRot1.y := 0
    g_InControlState.BodyRot1.z := 0
    g_InControlState.TravelLength.x := 0
    g_InControlState.TravelLength.z := 0
    g_InControlState.TravelLength.y := 0
    g_BodyYOffset := 0
    g_BodyYShift := 0
    g_InControlState.SelectedLeg := 255
    g_InControlState.fHexOn := false }

/-! ## `InputController::ControlInput` -/

/-- Lines 168-178: the Start button toggles the robot on and off. -/
def startButton (s : State) (ps2x : Inputs) : State :=
  if ps2x.ButtonPressed PSB.START then
    if s.g_InControlState.fHexOn then PS2TurnRobotOff s
    else { s with g_InControlState.fHexOn := true }
  else s

/-- Lines 183-197: L1 toggles Translate mode, except in single leg mode. -/
def switchTranslate (s : State) (ps2x : Inputs) : State :=
  if ps2x.ButtonPressed PSB.L1 && s.ControlMode != SINGLELEGMODE then
    if s.ControlMode != TRANSLATEMODE then { s with ControlMode := TRANSLATEMODE }
    else if s.g_InControlState.SelectedLeg == 255 then { s with ControlMode := WALKMODE }
    else { s with ControlMode := SINGLELEGMODE }
  else s

/-- Lines 199-213: L2 toggles Rotate mode. -/
def switchRotate (s : State) (ps2x : Inputs) : State :=
  if ps2x.ButtonPressed PSB.L2 then
    if s.ControlMode != ROTATEMODE then { s with ControlMode := ROTATEMODE }
    else if s.g_InControlState.SelectedLeg == 255 then { s with ControlMode := WALKMODE }
    else { s with ControlMode := SINGLELEGMODE }
  else s

/-- The guard shared by the Circle and Select tests: no movement, that is
`abs(TravelLength.x)`, `abs(TravelLength.z)` and `abs(TravelLength.y*2)` are
all below `cTravelDeadZone`. -/
def noMovement (s : State) : Bool :=
  decide (arduinoAbs s.g_InControlState.TravelLength.x < cTravelDeadZone)
    && decide (arduinoAbs s.g_InControlState.TravelLength.z < cTravelDeadZone)
    && decide (arduinoAbs (s.g_InControlState.TravelLength.y * 2) < cTravelDeadZone)

/-- Lines 215-232: Circle toggles single leg mode when there is no movement. -/
def switchSingleLeg (s : State) (ps2x : Inputs) : State :=
  if ps2x.ButtonPressed PSB.CIRCLE then
    if noMovement s then
      if s.ControlMode != SINGLELEGMODE then
        if s.g_InControlState.SelectedLeg == 255 then
          { s with ControlMode := SINGLELEGMODE, g_InControlState.SelectedLeg := 6 }
        else { s with ControlMode := SINGLELEGMODE }
      else { s with ControlMode := WALKMODE, g_InControlState.SelectedLeg := 255 }
    else s
  else s

/-- Lines 234-244, compiled only with `OPT_GPPLAYER`: Cross toggles the GP
player mode. -/
def switchGPPlayer (cfg : Config) (s : State) (ps2x : Inputs) : State :=
  if cfg.OPT_GPPLAYER && ps2x.ButtonPressed PSB.CROSS then
    if s.ControlMode != GPPLAYERMODE then { s with ControlMode := GPPLAYERMODE, GPSeq := 0 }
    else { s with ControlMode := WALKMODE }
  else s

/-- The block `[SWITCH MODES]`, lines 181-244, in the order of the source. -/
def switchModes (cfg : Config) (s : State) (ps2x : Inputs) : State :=
  switchGPPlayer cfg (switchSingleLeg (switchRotate (switchTranslate s ps2x) ps2x) ps2x) ps2x

/-- Lines 247-255: Square switches the balance mode. -/
def balanceButton (s : State) (ps2x : Inputs) : State :=
  if ps2x.ButtonPressed PSB.SQUARE then
    { s with g_InControlState.BalanceMode := !s.g_InControlState.BalanceMode }
  else s

/-- Lines 257-263: Triangle stands the body up or sits it down. -/
def standSit (s : State) (ps2x : Inputs) : State :=
  if ps2x.ButtonPressed PSB.TRIANGLE then
    if s.g_BodyYOffset > 0 then { s with g_BodyYOffset := 0 }
    else { s with g_BodyYOffset := 35 }
  else s

/-- Lines 265-266: D-pad up raises the body by 10. -/
def padUp (s : State) (ps2x : Inputs) : State :=
  if ps2x.Button PSB.PAD_UP then { s with g_BodyYOffset := toShort (s.g_BodyYOffset + 10) }
  else s

/-- Lines 268-269: D-pad down lowers the body by 10. -/
def padDown (s : State) (ps2x : Inputs) : State :=
  if ps2x.Button PSB.PAD_DOWN then { s with g_BodyYOffset := toShort (s.g_BodyYOffset - 10) }
  else s

/-- Lines 271-276: D-pad right takes 50 off `SpeedControl` while it is
positive. -/
def padRight (s : State) (ps2x : Inputs) : State :=
  if ps2x.Button PSB.PAD_RIGHT then
    if s.g_InControlState.SpeedControl > 0 then
      { s with g_InControlState.SpeedControl := s.g_InControlState.SpeedControl - 50 }
    else s
  else s

/-- Lines 278-283: D-pad left adds 50 to `SpeedControl` while it is below
2000. -/
def padLeft (s : State) (ps2x : Inputs) : State :=
  if ps2x.Button PSB.PAD_LEFT then
    if s.g_InControlState.SpeedControl < 2000 then
      { s with g_InControlState.SpeedControl := s.g_InControlState.SpeedControl + 50 }
    else s
  else s

/-- The block `[Common functions]`, lines 246-283, in the order of the
source. -/
def commonFunctions (s : State) (ps2x : Inputs) : State :=
  padLeft (padRight (padDown (padUp (standSit (balanceButton s ps2x) ps2x) ps2x) ps2x) ps2x) ps2x

/-- Lines 287-300: in walk mode Select goes to the next gait when there is no
movement, wrapping to gait 0 at `NUM_GAITS`. -/
def gaitButton (cfg : Config) (s : State) (ps2x : Inputs) : State :=
  if ps2x.ButtonPressed PSB.SELECT && noMovement s then
    if s.g_InControlState.GaitType + 1 < cfg.NUM_GAITS then
      { s with g_InControlState.GaitType := s.g_InControlState.GaitType + 1 }
    else { s with g_InControlState.GaitType := 0 }
  else s

/-- Lines 302-310: R1 toggles the double leg lift height. -/
def doubleHeightButton (s : State) (ps2x : Inputs) : State :=
  if ps2x.ButtonPressed PSB.R1 then
    if !s.DoubleHeightOn then
      { s with DoubleHeightOn := true, g_InControlState.LegLiftHeight := 100 }
    else { s with DoubleHeightOn := false, g_InControlState.LegLiftHeight := 50 }
  else s

/-- Lines 312-316: R2 toggles the double travel length. -/
def doubleTravelButton (s : State) (ps2x : Inputs) : State :=
  if ps2x.ButtonPressed PSB.R2 then { s with DoubleTravelOn := !s.DoubleTravelOn } else s

/-- Lines 318-322: R3 switches between walk method 1 and walk method 2. -/
def walkMethodButton (s : State) (ps2x : Inputs) : State :=
  if ps2x.ButtonPressed PSB.R3 then { s with WalkMethod := !s.WalkMethod } else s

/-- Lines 324-331: the sticks give the travel length x and z. -/
def walkSticks (s : State) (ps2x : Inputs) : State :=
  if s.WalkMethod then
    { s with g_InControlState.TravelLength.z := centred ps2x.PSS_RY }
  else
    { s with
      g_InControlState.TravelLength.x := -(centred ps2x.PSS_LX)
      g_InControlState.TravelLength.z := centred ps2x.PSS_LY }

/-- Lines 333-336: without double travel length, x and z are halved. -/
def halveTravel (s : State) : State :=
  if !s.DoubleTravelOn then
    { s with
      g_InControlState.TravelLength.x := Int.tdiv s.g_InControlState.TravelLength.x 2
      g_InControlState.TravelLength.z := Int.tdiv s.g_InControlState.TravelLength.z 2 }
  else s

/-- Line 338: the right stick, left/right, gives the travel length y. -/
def walkRotation (s : State) (ps2x : Inputs) : State :=
  { s with g_InControlState.TravelLength.y := Int.tdiv (-(centred ps2x.PSS_RX)) 4 }

/-- The block `[Walk functions]`, lines 285-339. -/
def walkFunctions (cfg : Config) (s : State) (ps2x : Inputs) : State :=
  if s.ControlMode == WALKMODE then
    walkRotation
      (halveTravel
        (walkSticks
          (walkMethodButton
            (doubleTravelButton (doubleHeightButton (gaitButton cfg s ps2x) ps2x) ps2x) ps2x)
          ps2x))
      ps2x
  else s

/-- Lines 343-354: the stick mapping of translate mode. -/
def translateSticks (s : State) (ps2x : Inputs) : State :=
  { s with
    g_InControlState.BodyPos.x := Int.tdiv (centred ps2x.PSS_LX) 2
    g_InControlState.BodyPos.z := Int.tdiv (-(centred ps2x.PSS_LY)) 3
    g_InControlState.BodyRot1.y := centred ps2x.PSS_RX * 2
    g_BodyYShift := Int.tdiv (-(centred ps2x.PSS_RY)) 2
    g_InControlState.ManPos.x := centred ps2x.PSS_RY * 2
    g_InControlState.ManPos.z := -(centred ps2x.PSS_LX) * 2
    g_InControlState.TailPos.x := centred ps2x.PSS_LY * 2
    g_InControlState.TailPos.y := centred ps2x.PSS_RX * 2 }

/-- The block `[Translate functions]`, lines 341-354: `g_BodyYShift` is
cleared in every mode, then translate mode maps the sticks. -/
def translateFunctions (s : State) (ps2x : Inputs) : State :=
  let s0 := { s with g_BodyYShift := 0 }
  if s0.ControlMode == TRANSLATEMODE then translateSticks s0 ps2x else s0

/-- The block `[Rotate functions]`, lines 356-364. -/
def rotateFunctions (s : State) (ps2x : Inputs) : State :=
  if s.ControlMode == ROTATEMODE then
    { s with
      g_InControlState.BodyRot1.x := centred ps2x.PSS_LY
      g_InControlState.BodyRot1.y := centred ps2x.PSS_RX * 2
      g_InControlState.BodyRot1.z := centred ps2x.PSS_LX
      g_BodyYShift := Int.tdiv (-(centred ps2x.PSS_RY)) 2
      g_InControlState.ManPos.z := -(centred ps2x.PSS_LX) * 2 }
  else s

/-- Lines 369-377: in single leg mode Select switches to the next leg. -/
def legButton (s : State) (ps2x : Inputs) : State :=
  if ps2x.ButtonPressed PSB.SELECT then
    if s.g_InControlState.SelectedLeg < 6 then
      { s with g_InControlState.SelectedLeg := s.g_InControlState.SelectedLeg + 1 }
    else { s with g_InControlState.SelectedLeg := 0 }
  else s

/-- Lines 381-388: R1 held adds 100 to both mandible closures, limited above. -/
def mandibleClose (cfg : Config) (s : State) (ps2x : Inputs) : State :=
  if ps2x.Button PSB.R1 then
    { s with
      g_InControlState.ManClos.x :=
        if s.g_InControlState.ManClos.x + 100 > cfg.cMandLeftMAX1 then cfg.cMandLeftMAX1
        else s.g_InControlState.ManClos.x + 100
      g_InControlState.ManClos.y :=
        if s.g_InControlState.ManClos.y + 100 > cfg.cMandRightMAX1 then cfg.cMandRightMAX1
        else s.g_InControlState.ManClos.y + 100 }
  else s

/-- Lines 389-396: L1 held takes 100 off both mandible closures, limited
below. -/
def mandibleOpen (cfg : Config) (s : State) (ps2x : Inputs) : State :=
  if ps2x.Button PSB.L1 then
    { s with
      g_InControlState.ManClos.x :=
        if s.g_InControlState.ManClos.x - 100 < cfg.cMandLeftMIN1 then cfg.cMandLeftMIN1
        else s.g_InControlState.ManClos.x - 100
      g_InControlState.ManClos.y :=
        if s.g_InControlState.ManClos.y - 100 < cfg.cMandRightMIN1 then cfg.cMandRightMIN1
        else s.g_InControlState.ManClos.y - 100 }
  else s

/-- Lines 398-404: the stick mapping while the mandible is selected. -/
def mandibleSticks (s : State) (ps2x : Inputs) : State :=
  { s with
    g_InControlState.ManPos.x := -(centred ps2x.PSS_RY) * 2
    g_InControlState.TailPos.x := -(centred ps2x.PSS_RY) * 2
    g_InControlState.ManPos.y := centred ps2x.PSS_RX * 2
    g_InControlState.TailPos.y := centred ps2x.PSS_RX * 2
    g_InControlState.ManPos.z := centred ps2x.PSS_LX * 2 }

/-- Lines 407-409: the stick mapping while a leg is selected. -/
def legSticks (s : State) (ps2x : Inputs) : State :=
  { s with
    g_InControlState.SLLeg.x := Int.tdiv (centred ps2x.PSS_LX) 2
    g_InControlState.SLLeg.y := Int.tdiv (centred ps2x.PSS_RY) 10
    g_InControlState.SLLeg.z := Int.tdiv (centred ps2x.PSS_LY) 2 }

/-- Lines 379-410: mandible handling when leg 6 is selected, leg handling
otherwise. -/
def mandibleOrLeg (cfg : Config) (s : State) (ps2x : Inputs) : State :=
  if s.g_InControlState.SelectedLeg == MANDIBLE_INDEX then
    mandibleSticks (mandibleOpen cfg (mandibleClose cfg s ps2x) ps2x) ps2x
  else legSticks s ps2x

/-- Lines 412-416: R2 holds the single leg in place, or releases it. -/
def holdButton (s : State) (ps2x : Inputs) : State :=
  if ps2x.ButtonPressed PSB.R2 then
    { s with g_InControlState.fSLHold := !s.g_InControlState.fSLHold }
  else s

/-- The block `[Single leg functions and Mandible mode]`, lines 366-417. -/
def singleLegFunctions (cfg : Config) (s : State) (ps2x : Inputs) : State :=
  if s.ControlMode == SINGLELEGMODE then
    holdButton (mandibleOrLeg cfg (legButton s ps2x) ps2x) ps2x
  else s

/-- The block `[GPPlayer functions]`, lines 419-439, compiled only with
`OPT_GPPLAYER`: Select switches sequences while none is active. -/
def gpPlayerFunctions (cfg : Config) (s : State) (ps2x : Inputs) : State :=
  if cfg.OPT_GPPLAYER && s.ControlMode == GPPLAYERMODE then
    if ps2x.ButtonPressed PSB.SELECT then
      if !ps2x.FIsGPSeqActive then
        if s.GPSeq < 5 then { s with GPSeq := s.GPSeq + 1 } else { s with GPSeq := 0 }
      else s
    else s
  else s

/-- Lines 441-442: the walking time delay. -/
def timeDelay (s : State) (ps2x : Inputs) : State :=
  { s with
    g_InControlState.InputTimeDelay :=
      128 - arduinoMax
        (arduinoMax (arduinoAbs (centred ps2x.PSS_LX)) (arduinoAbs (centred ps2x.PSS_LY)))
        (arduinoAbs (centred ps2x.PSS_RX)) }

/-- Lines 180-443: everything that runs while the hexapod is on, in the
order of the source. -/
def hexOn (cfg : Config) (s : State) (ps2x : Inputs) : State :=
  timeDelay
    (gpPlayerFunctions cfg
      (singleLegFunctions cfg
        (rotateFunctions
          (translateFunctions
            (walkFunctions cfg (commonFunctions (switchModes cfg s ps2x) ps2x) ps2x) ps2x)
          ps2x)
        ps2x)
      ps2x)
    ps2x

/-- Lines 445-446: `BodyPos.y = max(g_BodyYOffset + g_BodyYShift, 0)`. -/
def bodyPosY (s : State) : State :=
  { s with g_InControlState.BodyPos.y := arduinoMax (s.g_BodyYOffset + s.g_BodyYShift) 0 }

/-- Lines 166-178: the state at line 180 of a cycle whose packet passed the
validity test, with the error count cleared and the Start button handled. -/
def afterStart (s : State) (ps2x : Inputs) : State :=
  startButton { s with g_sPS2ErrorCnt := 0 } ps2x

/-- Lines 164-446: a cycle whose packet passed the validity test. -/
def validCycle (cfg : Config) (s : State) (ps2x : Inputs) : State :=
  bodyPosY
    (if (afterStart s ps2x).g_InControlState.fHexOn then hexOn cfg (afterStart s ps2x) ps2x
     else afterStart s ps2x)

/-- Lines 447-455: a cycle whose packet failed the validity test. -/
def lostCycle (s : State) : State :=
  if s.g_sPS2ErrorCnt < MAXPS2ERRORCNT then { s with g_sPS2ErrorCnt := s.g_sPS2ErrorCnt + 1 }
  else if s.g_InControlState.fHexOn then PS2TurnRobotOff s
  else s

/-- `InputController::ControlInput`, lines 158-456. -/
def ControlInput (cfg : Config) (s : State) (ps2x : Inputs) : State :=
  if analogModeOK ps2x then validCycle cfg s ps2x else lostCycle s

/-- The main loop calls `ControlInput` once per cycle: the state after a
finite sequence of cycles. -/
def runCycles (cfg : Config) (s : State) (reads : List Inputs) : State :=
  reads.foldl (ControlInput cfg) s

/-! ## Concrete states and packets

Used to evaluate the functions above at explicit inputs. -/

/-- The same packet without the Start edge. -/
def withoutStart (ps2x : Inputs) : Inputs :=
  { ps2x with ButtonPressed := fun b => b != PSB.START && ps2x.ButtonPressed b }

/-- A packet with the given mode byte and stick bytes (left x, left y,
right x, right y), the listed buttons newly pressed and the listed buttons
held down; no GP sequence is playing. -/
def packet (mode lx ly rx ry : Nat) (pressed held : List PSB) : Inputs :=
  { Analog1 := mode, PSS_LX := lx, PSS_LY := ly, PSS_RX := rx, PSS_RY := ry
    ButtonPressed := fun b => pressed.contains b
    Button := fun b => held.contains b
    FIsGPSeqActive := false }

/-- A build with the GP player compiled in, five gaits and mandible closure
limits 1000 and 2000. -/
def sampleConfig : Config :=
  { OPT_GPPLAYER := true, NUM_GAITS := 5
    cMandLeftMAX1 := 2000, cMandLeftMIN1 := 1000
    cMandRightMAX1 := 2000, cMandRightMIN1 := 1000 }

/-- The hexapod switched off, at rest in walk mode with no leg selected. -/
def restState : State :=
  { g_InControlState :=
      { fHexOn := false
        BodyPos := ⟨0, 0, 0⟩, BodyRot1 := ⟨0, 0, 0⟩, TravelLength := ⟨0, 0, 0⟩
        SelectedLeg := 255, BalanceMode := false, SpeedControl := 100
        GaitType := 0, LegLiftHeight := 50
        SLLeg := ⟨0, 0, 0⟩, fSLHold := false
        ManPos := ⟨0, 0, 0⟩, ManClos := ⟨1500, 1500⟩, TailPos := ⟨0, 0⟩
        InputTimeDelay := 128 }
    g_BodyYOffset := 0, g_sPS2ErrorCnt := 0, g_BodyYShift := 0
    ControlMode := WALKMODE
    DoubleHeightOn := false, DoubleTravelOn := false, WalkMethod := false
    GPSeq := 0 }

/-- The hexapod switched on and walking: body raised to 65, travel length
`(-50, 10, 20)`. -/
def walkingState : State :=
  { restState with
    g_InControlState.fHexOn := true
    g_InControlState.BodyPos := ⟨0, 65, 0⟩
    g_InControlState.TravelLength := ⟨-50, 10, 20⟩
    g_InControlState.InputTimeDelay := 28
    g_BodyYOffset := 65 }

/-- A packet that fails the validity test (mode byte `0xff`, as when the
controller is unplugged). -/
def lostPacket : Inputs := packet 0xff 255 255 255 255 [] []

/-- A valid analog-mode packet (mode byte `0x73`), sticks centred, nothing
pressed. -/
def idlePacket : Inputs := packet 0x73 128 128 128 128 [] []

/-- A valid packet with Start newly pressed and the left stick pushed to
`x = 228`. -/
def startPacket : Inputs := packet 0x73 228 128 128 128 [PSB.START] [PSB.START]

/-- The walking hexapod after five lost packets in a row. -/
def lastChanceState : State := { walkingState with g_sPS2ErrorCnt := 5 }

/-- A valid packet with D-pad left and D-pad right both held down. -/
def bothPadsPacket : Inputs := packet 0x73 128 128 128 128 [] [PSB.PAD_LEFT, PSB.PAD_RIGHT]

/-- The hexapod switched on and standing still in walk mode. -/
def standingState : State :=
  { restState with
    g_InControlState.fHexOn := true
    g_InControlState.BodyPos := ⟨0, 35, 0⟩
    g_BodyYOffset := 35 }

/-- The hexapod standing in single leg mode with leg 3 selected. -/
def singleLegState : State :=
  { standingState with ControlMode := SINGLELEGMODE, g_InControlState.SelectedLeg := 3 }

/-- The hexapod standing in translate mode, entered from single leg mode
with leg 3 still selected. -/
def shiftedLegState : State :=
  { standingState with ControlMode := TRANSLATEMODE, g_InControlState.SelectedLeg := 3 }

/-- A valid packet with L1 newly pressed, sticks centred. -/
def l1Packet : Inputs := packet 0x73 128 128 128 128 [PSB.L1] [PSB.L1]

/-- A valid packet with L2 newly pressed, sticks centred. -/
def l2Packet : Inputs := packet 0x73 128 128 128 128 [PSB.L2] [PSB.L2]

/-- A valid packet with Circle newly pressed, sticks centred. -/
def circlePacket : Inputs := packet 0x73 128 128 128 128 [PSB.CIRCLE] [PSB.CIRCLE]

/-- A valid packet with Circle and Select both newly pressed, sticks centred. -/
def circleSelectPacket : Inputs :=
  packet 0x73 128 128 128 128 [PSB.CIRCLE, PSB.SELECT] [PSB.CIRCLE, PSB.SELECT]

/-- A valid cycle with a Select edge and no Start, L1, L2, Circle or Cross
edge. -/
def selectCycle (ps2x : Inputs) : Bool :=
  analogModeOK ps2x && ps2x.ButtonPressed PSB.SELECT
    && !ps2x.ButtonPressed PSB.START && !ps2x.ButtonPressed PSB.L1
    && !ps2x.ButtonPressed PSB.L2 && !ps2x.ButtonPressed PSB.CIRCLE
    && !ps2x.ButtonPressed PSB.CROSS

/-- The cycle calls `PS2TurnRobotOff` while the mode is single leg mode:
the hexapod is on and either the packet is valid with a Start edge (line 173)
or the packet is lost with the error count at its ceiling (line 452). -/
def resetsInSingleLeg (s : State) (ps2x : Inputs) : Bool :=
  s.ControlMode == SINGLELEGMODE && s.g_InControlState.fHexOn
    && (if analogModeOK ps2x then ps2x.ButtonPressed PSB.START
        else !decide (s.g_sPS2ErrorCnt < MAXPS2ERRORCNT))

/-- No cycle of the run calls `PS2TurnRobotOff` while the mode is single leg
mode. -/
def neverResetsInSingleLeg (cfg : Config) : State → List Inputs → Bool
  | _, [] => true
  | s, r :: rs => !resetsInSingleLeg s r && neverResetsInSingleLeg cfg (ControlInput cfg s r) rs

/-- A valid packet with Start newly pressed, sticks centred. -/
def startIdlePacket : Inputs := packet 0x73 128 128 128 128 [PSB.START] [PSB.START]

/-- A valid packet with Select newly pressed, sticks centred. -/
def selectPacket : Inputs := packet 0x73 128 128 128 128 [PSB.SELECT] [PSB.SELECT]

/-- A leg `0..6` or the sentinel 255 is selected, and in single leg mode it
is a leg. -/
def legSelected (s : State) : Prop :=
  (s.g_InControlState.SelectedLeg ≤ 6 ∨ s.g_InControlState.SelectedLeg = 255)
    ∧ (s.ControlMode = SINGLELEGMODE → s.g_InControlState.SelectedLeg ≤ 6)

instance (s : State) : Decidable (legSelected s) := by
  unfold legSelected
  exact inferInstance

/-- Both mandible closures lie within their configured limits. -/
def closureInRange (cfg : Config) (s : State) : Prop :=
  cfg.cMandLeftMIN1 ≤ s.g_InControlState.ManClos.x
    ∧ s.g_InControlState.ManClos.x ≤ cfg.cMandLeftMAX1
    ∧ cfg.cMandRightMIN1 ≤ s.g_InControlState.ManClos.y
    ∧ s.g_InControlState.ManClos.y ≤ cfg.cMandRightMAX1

instance (cfg : Config) (s : State) : Decidable (closureInRange cfg s) := by
  unfold closureInRange
  exact inferInstance

/-- Single leg mode with the mandible slot selected and the left closure at
its upper limit. -/
def mandibleState : State :=
  { standingState with
    ControlMode := SINGLELEGMODE
    g_InControlState.SelectedLeg := 6
    g_InControlState.ManClos := ⟨2000, 1950⟩ }

/-- A valid packet with R1 held down, sticks centred. -/
def r1HeldPacket : Inputs := packet 0x73 128 128 128 128 [] [PSB.R1]

/-- A valid packet with the left stick pushed to `x = 228`, nothing pressed. -/
def strafePacket : Inputs := packet 0x73 228 128 128 128 [] []

/-- A valid packet with the left stick pushed to `x = 228` and R2 newly
pressed. -/
def strafeR2Packet : Inputs := packet 0x73 228 128 128 128 [PSB.R2] [PSB.R2]

/-- A valid packet with R3 newly pressed, sticks centred. -/
def r3Packet : Inputs := packet 0x73 128 128 128 128 [PSB.R3] [PSB.R3]

/-- The same packet with other stick bytes. -/
def withSticks (ps2x : Inputs) (lx ly rx ry : Nat) : Inputs :=
  { ps2x with PSS_LX := lx, PSS_LY := ly, PSS_RX := rx, PSS_RY := ry }

/-- Walking under walk method 2 with double travel on, the strafe `x = -50`
left over from walk method 1. -/
def staleStrafeState : State :=
  { walkingState with WalkMethod := true, DoubleTravelOn := true }

/-! ## Arithmetic lemmas -/

theorem arduinoAbs_eq (x : Int) : arduinoAbs x = |x| := by
  unfold arduinoAbs
  split_ifs with h
  · exact (abs_of_pos h).symm
  · exact (abs_of_nonpos (not_lt.mp h)).symm

theorem arduinoMax_eq (a b : Int) : arduinoMax a b = max a b := by
  unfold arduinoMax
  split_ifs with h
  · exact (max_eq_left (le_of_lt h)).symm
  · exact (max_eq_right (not_lt.mp h)).symm

/-! ## The two kinds of cycle -/

theorem ControlInput_lost (cfg : Config) (s : State) (r : Inputs) (h : analogModeOK r = false) :
    ControlInput cfg s r = lostCycle s := by
  simp [ControlInput, h]

theorem ControlInput_valid (cfg : Config) (s : State) (r : Inputs) (h : analogModeOK r = true) :
    ControlInput cfg s r = validCycle cfg s r := by
  simp [ControlInput, h]

theorem runCycles_nil (cfg : Config) (s : State) : runCycles cfg s [] = s := rfl

theorem runCycles_cons (cfg : Config) (s : State) (r : Inputs) (rs : List Inputs) :
    runCycles cfg s (r :: rs) = runCycles cfg (ControlInput cfg s r) rs := rfl

/-! ## Frame lemmas

Each step of `ControlInput` writes a few variables and leaves the others
alone; the lemmas below record, for the variables the later proofs follow,
which steps leave them alone. -/

/-! ### Steps that leave `SpeedControl` alone -/

@[simp] theorem PS2TurnRobotOff_SpeedControl (s : State) :
    (PS2TurnRobotOff s).g_InControlState.SpeedControl = s.g_InControlState.SpeedControl := rfl
@[simp] theorem startButton_SpeedControl (s : State) (r : Inputs) :
    (startButton s r).g_InControlState.SpeedControl = s.g_InControlState.SpeedControl := by
  unfold startButton; split_ifs <;> rfl
@[simp] theorem afterStart_SpeedControl (s : State) (r : Inputs) :
    (afterStart s r).g_InControlState.SpeedControl = s.g_InControlState.SpeedControl := by
  simp [afterStart]
@[simp] theorem switchTranslate_SpeedControl (s : State) (r : Inputs) :
    (switchTranslate s r).g_InControlState.SpeedControl = s.g_InControlState.SpeedControl := by
  unfold switchTranslate; split_ifs <;> rfl
@[simp] theorem switchRotate_SpeedControl (s : State) (r : Inputs) :
    (switchRotate s r).g_InControlState.SpeedControl = s.g_InControlState.SpeedControl := by
  unfold switchRotate; split_ifs <;> rfl
@[simp] theorem switchSingleLeg_SpeedControl (s : State) (r : Inputs) :
    (switchSingleLeg s r).g_InControlState.SpeedControl = s.g_InControlState.SpeedControl := by
  unfold switchSingleLeg; split_ifs <;> rfl
@[simp] theorem switchGPPlayer_SpeedControl (cfg : Config) (s : State) (r : Inputs) :
    (switchGPPlayer cfg s r).g_InControlState.SpeedControl = s.g_InControlState.SpeedControl := by
  unfold switchGPPlayer; split_ifs <;> rfl
@[simp] theorem switchModes_SpeedControl (cfg : Config) (s : State) (r : Inputs) :
    (switchModes cfg s r).g_InControlState.SpeedControl = s.g_InControlState.SpeedControl := by
  simp [switchModes]
@[simp] theorem balanceButton_SpeedControl (s : State) (r : Inputs) :
    (balanceButton s r).g_InControlState.SpeedControl = s.g_InControlState.SpeedControl := by
  unfold balanceButton; split_ifs <;> rfl
@[simp] theorem standSit_SpeedControl (s : State) (r : Inputs) :
    (standSit s r).g_InControlState.SpeedControl = s.g_InControlState.SpeedControl := by
  unfold standSit; split_ifs <;> rfl
@[simp] theorem padUp_SpeedControl (s : State) (r : Inputs) :
    (padUp s r).g_InControlState.SpeedControl = s.g_InControlState.SpeedControl := by
  unfold padUp; split_ifs <;> rfl
@[simp] theorem padDown_SpeedControl (s : State) (r : Inputs) :
    (padDown s r).g_InControlState.SpeedControl = s.g_InControlState.SpeedControl := by
  unfold padDown; split_ifs <;> rfl
@[simp] theorem gaitButton_SpeedControl (cfg : Config) (s : State) (r : Inputs) :
    (gaitButton cfg s r).g_InControlState.SpeedControl = s.g_InControlState.SpeedControl := by
  unfold gaitButton; split_ifs <;> rfl
@[simp] theorem doubleHeightButton_SpeedControl (s : State) (r : Inputs) :
    (doubleHeightButton s r).g_InControlState.SpeedControl = s.g_InControlState.SpeedControl := by
  unfold doubleHeightButton; split_ifs <;> rfl
@[simp] theorem doubleTravelButton_SpeedControl (s : State) (r : Inputs) :
    (doubleTravelButton s r).g_InControlState.SpeedControl = s.g_InControlState.SpeedControl := by
  unfold doubleTravelButton; split_ifs <;> rfl
@[simp] theorem walkMethodButton_SpeedControl (s : State) (r : Inputs) :
    (walkMethodButton s r).g_InControlState.SpeedControl = s.g_InControlState.SpeedControl := by
  unfold walkMethodButton; split_ifs <;> rfl
@[simp] theorem walkSticks_SpeedControl (s : State) (r : Inputs) :
    (walkSticks s r).g_InControlState.SpeedControl = s.g_InControlState.SpeedControl := by
  unfold walkSticks; split_ifs <;> rfl
@[simp] theorem halveTravel_SpeedControl (s : State) :
    (halveTravel s).g_InControlState.SpeedControl = s.g_InControlState.SpeedControl := by
  unfold halveTravel; split_ifs <;> rfl
@[simp] theorem walkRotation_SpeedControl (s : State) (r : Inputs) :
    (walkRotation s r).g_InControlState.SpeedControl = s.g_InControlState.SpeedControl := rfl
@[simp] theorem walkFunctions_SpeedControl (cfg : Config) (s : State) (r : Inputs) :
    (walkFunctions cfg s r).g_InControlState.SpeedControl = s.g_InControlState.SpeedControl := by
  simp only [walkFunctions]; split_ifs <;> simp
@[simp] theorem translateSticks_SpeedControl (s : State) (r : Inputs) :
    (translateSticks s r).g_InControlState.SpeedControl = s.g_InControlState.SpeedControl := rfl
@[simp] theorem translateFunctions_SpeedControl (s : State) (r : Inputs) :
    (translateFunctions s r).g_InControlState.SpeedControl = s.g_InControlState.SpeedControl := by
  simp only [translateFunctions]; split_ifs <;> simp
@[simp] theorem rotateFunctions_SpeedControl (s : State) (r : Inputs) :
    (rotateFunctions s r).g_InControlState.SpeedControl = s.g_InControlState.SpeedControl := by
  unfold rotateFunctions; split_ifs <;> rfl
@[simp] theorem legButton_SpeedControl (s : State) (r : Inputs) :
    (legButton s r).g_InControlState.SpeedControl = s.g_InControlState.SpeedControl := by
  unfold legButton; split_ifs <;> rfl
@[simp] theorem mandibleClose_SpeedControl (cfg : Config) (s : State) (r : Inputs) :
    (mandibleClose cfg s r).g_InControlState.SpeedControl = s.g_InControlState.SpeedControl := by
  unfold mandibleClose; split_ifs <;> rfl
@[simp] theorem mandibleOpen_SpeedControl (cfg : Config) (s : State) (r : Inputs) :
    (mandibleOpen cfg s r).g_InControlState.SpeedControl = s.g_InControlState.SpeedControl := by
  unfold mandibleOpen; split_ifs <;> rfl
@[simp] theorem mandibleSticks_SpeedControl (s : State) (r : Inputs) :
    (mandibleSticks s r).g_InControlState.SpeedControl = s.g_InControlState.SpeedControl := rfl
@[simp] theorem legSticks_SpeedControl (s : State) (r : Inputs) :
    (legSticks s r).g_InControlState.SpeedControl = s.g_InControlState.SpeedControl := rfl
@[simp] theorem mandibleOrLeg_SpeedControl (cfg : Config) (s : State) (r : Inputs) :
    (mandibleOrLeg cfg s r).g_InControlState.SpeedControl = s.g_InControlState.SpeedControl := by
  simp only [mandibleOrLeg]; split_ifs <;> simp
@[simp] theorem holdButton_SpeedControl (s : State) (r : Inputs) :
    (holdButton s r).g_InControlState.SpeedControl = s.g_InControlState.SpeedControl := by
  unfold holdButton; split_ifs <;> rfl
@[simp] theorem singleLegFunctions_SpeedControl (cfg : Config) (s : State) (r : Inputs) :
    (singleLegFunctions cfg s r).g_InControlState.SpeedControl = s.g_InControlState.SpeedControl := by
  simp only [singleLegFunctions]; split_ifs <;> simp
@[simp] theorem gpPlayerFunctions_SpeedControl (cfg : Config) (s : State) (r : Inputs) :
    (gpPlayerFunctions cfg s r).g_InControlState.SpeedControl = s.g_InControlState.SpeedControl := by
  unfold gpPlayerFunctions; split_ifs <;> rfl
@[simp] theorem timeDelay_SpeedControl (s : State) (r : Inputs) :
    (timeDelay s r).g_InControlState.SpeedControl = s.g_InControlState.SpeedControl := rfl
@[simp] theorem bodyPosY_SpeedControl (s : State) :
    (bodyPosY s).g_InControlState.SpeedControl = s.g_InControlState.SpeedControl := rfl

/-! ### Steps that leave `ControlMode` alone -/

@[simp] theorem PS2TurnRobotOff_ControlMode (s : State) :
    (PS2TurnRobotOff s).ControlMode = s.ControlMode := rfl
@[simp] theorem startButton_ControlMode (s : State) (r : Inputs) :
    (startButton s r).ControlMode = s.ControlMode := by
  unfold startButton; split_ifs <;> rfl
@[simp] theorem afterStart_ControlMode (s : State) (r : Inputs) :
    (afterStart s r).ControlMode = s.ControlMode := by
  simp [afterStart]
@[simp] theorem balanceButton_ControlMode (s : State) (r : Inputs) :
    (balanceButton s r).ControlMode = s.ControlMode := by
  unfold balanceButton; split_ifs <;> rfl
@[simp] theorem standSit_ControlMode (s : State) (r : Inputs) :
    (standSit s r).ControlMode = s.ControlMode := by
  unfold standSit; split_ifs <;> rfl
@[simp] theorem padUp_ControlMode (s : State) (r : Inputs) :
    (padUp s r).ControlMode = s.ControlMode := by
  unfold padUp; split_ifs <;> rfl
@[simp] theorem padDown_ControlMode (s : State) (r : Inputs) :
    (padDown s r).ControlMode = s.ControlMode := by
  unfold padDown; split_ifs <;> rfl
@[simp] theorem padRight_ControlMode (s : State) (r : Inputs) :
    (padRight s r).ControlMode = s.ControlMode := by
  unfold padRight; split_ifs <;> rfl
@[simp] theorem padLeft_ControlMode (s : State) (r : Inputs) :
    (padLeft s r).ControlMode = s.ControlMode := by
  unfold padLeft; split_ifs <;> rfl
@[simp] theorem commonFunctions_ControlMode (s : State) (r : Inputs) :
    (commonFunctions s r).ControlMode = s.ControlMode := by
  simp [commonFunctions]
@[simp] theorem gaitButton_ControlMode (cfg : Config) (s : State) (r : Inputs) :
    (gaitButton cfg s r).ControlMode = s.ControlMode := by
  unfold gaitButton; split_ifs <;> rfl
@[simp] theorem doubleHeightButton_ControlMode (s : State) (r : Inputs) :
    (doubleHeightButton s r).ControlMode = s.ControlMode := by
  unfold doubleHeightButton; split_ifs <;> rfl
@[simp] theorem doubleTravelButton_ControlMode (s : State) (r : Inputs) :
    (doubleTravelButton s r).ControlMode = s.ControlMode := by
  unfold doubleTravelButton; split_ifs <;> rfl
@[simp] theorem walkMethodButton_ControlMode (s : State) (r : Inputs) :
    (walkMethodButton s r).ControlMode = s.ControlMode := by
  unfold walkMethodButton; split_ifs <;> rfl
@[simp] theorem walkSticks_ControlMode (s : State) (r : Inputs) :
    (walkSticks s r).ControlMode = s.ControlMode := by
  unfold walkSticks; split_ifs <;> rfl
@[simp] theorem halveTravel_ControlMode (s : State) :
    (halveTravel s).ControlMode = s.ControlMode := by
  unfold halveTravel; split_ifs <;> rfl
@[simp] theorem walkRotation_ControlMode (s : State) (r : Inputs) :
    (walkRotation s r).ControlMode = s.ControlMode := rfl
@[simp] theorem walkFunctions_ControlMode (cfg : Config) (s : State) (r : Inputs) :
    (walkFunctions cfg s r).ControlMode = s.ControlMode := by
  simp only [walkFunctions]; split_ifs <;> simp
@[simp] theorem translateSticks_ControlMode (s : State) (r : Inputs) :
    (translateSticks s r).ControlMode = s.ControlMode := rfl
@[simp] theorem translateFunctions_ControlMode (s : State) (r : Inputs) :
    (translateFunctions s r).ControlMode = s.ControlMode := by
  simp only [translateFunctions]; split_ifs <;> simp
@[simp] theorem rotateFunctions_ControlMode (s : State) (r : Inputs) :
    (rotateFunctions s r).ControlMode = s.ControlMode := by
  unfold rotateFunctions; split_ifs <;> rfl
@[simp] theorem legButton_ControlMode (s : State) (r : Inputs) :
    (legButton s r).ControlMode = s.ControlMode := by
  unfold legButton; split_ifs <;> rfl
@[simp] theorem mandibleClose_ControlMode (cfg : Config) (s : State) (r : Inputs) :
    (mandibleClose cfg s r).ControlMode = s.ControlMode := by
  unfold mandibleClose; split_ifs <;> rfl
@[simp] theorem mandibleOpen_ControlMode (cfg : Config) (s : State) (r : Inputs) :
    (mandibleOpen cfg s r).ControlMode = s.ControlMode := by
  unfold mandibleOpen; split_ifs <;> rfl
@[simp] theorem mandibleSticks_ControlMode (s : State) (r : Inputs) :
    (mandibleSticks s r).ControlMode = s.ControlMode := rfl
@[simp] theorem legSticks_ControlMode (s : State) (r : Inputs) :
    (legSticks s r).ControlMode = s.ControlMode := rfl
@[simp] theorem mandibleOrLeg_ControlMode (cfg : Config) (s : State) (r : Inputs) :
    (mandibleOrLeg cfg s r).ControlMode = s.ControlMode := by
  simp only [mandibleOrLeg]; split_ifs <;> simp
@[simp] theorem holdButton_ControlMode (s : State) (r : Inputs) :
    (holdButton s r).ControlMode = s.ControlMode := by
  unfold holdButton; split_ifs <;> rfl
@[simp] theorem singleLegFunctions_ControlMode (cfg : Config) (s : State) (r : Inputs) :
    (singleLegFunctions cfg s r).ControlMode = s.ControlMode := by
  simp only [singleLegFunctions]; split_ifs <;> simp
@[simp] theorem gpPlayerFunctions_ControlMode (cfg : Config) (s : State) (r : Inputs) :
    (gpPlayerFunctions cfg s r).ControlMode = s.ControlMode := by
  unfold gpPlayerFunctions; split_ifs <;> rfl
@[simp] theorem timeDelay_ControlMode (s : State) (r : Inputs) :
    (timeDelay s r).ControlMode = s.ControlMode := rfl
@[simp] theorem bodyPosY_ControlMode (s : State) : (bodyPosY s).ControlMode = s.ControlMode := rfl

/-! ### Steps that leave `SelectedLeg` alone -/

@[simp] theorem switchTranslate_SelectedLeg (s : State) (r : Inputs) :
    (switchTranslate s r).g_InControlState.SelectedLeg = s.g_InControlState.SelectedLeg := by
  unfold switchTranslate; split_ifs <;> rfl
@[simp] theorem switchRotate_SelectedLeg (s : State) (r : Inputs) :
    (switchRotate s r).g_InControlState.SelectedLeg = s.g_InControlState.SelectedLeg := by
  unfold switchRotate; split_ifs <;> rfl
@[simp] theorem switchGPPlayer_SelectedLeg (cfg : Config) (s : State) (r : Inputs) :
    (switchGPPlayer cfg s r).g_InControlState.SelectedLeg = s.g_InControlState.SelectedLeg := by
  unfold switchGPPlayer; split_ifs <;> rfl
@[simp] theorem balanceButton_SelectedLeg (s : State) (r : Inputs) :
    (balanceButton s r).g_InControlState.SelectedLeg = s.g_InControlState.SelectedLeg := by
  unfold balanceButton; split_ifs <;> rfl
@[simp] theorem standSit_SelectedLeg (s : State) (r : Inputs) :
    (standSit s r).g_InControlState.SelectedLeg = s.g_InControlState.SelectedLeg := by
  unfold standSit; split_ifs <;> rfl
@[simp] theorem padUp_SelectedLeg (s : State) (r : Inputs) :
    (padUp s r).g_InControlState.SelectedLeg = s.g_InControlState.SelectedLeg := by
  unfold padUp; split_ifs <;> rfl
@[simp] theorem padDown_SelectedLeg (s : State) (r : Inputs) :
    (padDown s r).g_InControlState.SelectedLeg = s.g_InControlState.SelectedLeg := by
  unfold padDown; split_ifs <;> rfl
@[simp] theorem padRight_SelectedLeg (s : State) (r : Inputs) :
    (padRight s r).g_InControlState.SelectedLeg = s.g_InControlState.SelectedLeg := by
  unfold padRight; split_ifs <;> rfl
@[simp] theorem padLeft_SelectedLeg (s : State) (r : Inputs) :
    (padLeft s r).g_InControlState.SelectedLeg = s.g_InControlState.SelectedLeg := by
  unfold padLeft; split_ifs <;> rfl
@[simp] theorem commonFunctions_SelectedLeg (s : State) (r : Inputs) :
    (commonFunctions s r).g_InControlState.SelectedLeg = s.g_InControlState.SelectedLeg := by
  simp [commonFunctions]
@[simp] theorem gaitButton_SelectedLeg (cfg : Config) (s : State) (r : Inputs) :
    (gaitButton cfg s r).g_InControlState.SelectedLeg = s.g_InControlState.SelectedLeg := by
  unfold gaitButton; split_ifs <;> rfl
@[simp] theorem doubleHeightButton_SelectedLeg (s : State) (r : Inputs) :
    (doubleHeightButton s r).g_InControlState.SelectedLeg = s.g_InControlState.SelectedLeg := by
  unfold doubleHeightButton; split_ifs <;> rfl
@[simp] theorem doubleTravelButton_SelectedLeg (s : State) (r : Inputs) :
    (doubleTravelButton s r).g_InControlState.SelectedLeg = s.g_InControlState.SelectedLeg := by
  unfold doubleTravelButton; split_ifs <;> rfl
@[simp] theorem walkMethodButton_SelectedLeg (s : State) (r : Inputs) :
    (walkMethodButton s r).g_InControlState.SelectedLeg = s.g_InControlState.SelectedLeg := by
  unfold walkMethodButton; split_ifs <;> rfl
@[simp] theorem walkSticks_SelectedLeg (s : State) (r : Inputs) :
    (walkSticks s r).g_InControlState.SelectedLeg = s.g_InControlState.SelectedLeg := by
  unfold walkSticks; split_ifs <;> rfl
@[simp] theorem halveTravel_SelectedLeg (s : State) :
    (halveTravel s).g_InControlState.SelectedLeg = s.g_InControlState.SelectedLeg := by
  unfold halveTravel; split_ifs <;> rfl
@[simp] theorem walkRotation_SelectedLeg (s : State) (r : Inputs) :
    (walkRotation s r).g_InControlState.SelectedLeg = s.g_InControlState.SelectedLeg := rfl
@[simp] theorem walkFunctions_SelectedLeg (cfg : Config) (s : State) (r : Inputs) :
    (walkFunctions cfg s r).g_InControlState.SelectedLeg = s.g_InControlState.SelectedLeg := by
  simp only [walkFunctions]; split_ifs <;> simp
@[simp] theorem translateSticks_SelectedLeg (s : State) (r : Inputs) :
    (translateSticks s r).g_InControlState.SelectedLeg = s.g_InControlState.SelectedLeg := rfl
@[simp] theorem translateFunctions_SelectedLeg (s : State) (r : Inputs) :
    (translateFunctions s r).g_InControlState.SelectedLeg = s.g_InControlState.SelectedLeg := by
  simp only [translateFunctions]; split_ifs <;> simp
@[simp] theorem rotateFunctions_SelectedLeg (s : State) (r : Inputs) :
    (rotateFunctions s r).g_InControlState.SelectedLeg = s.g_InControlState.SelectedLeg := by
  unfold rotateFunctions; split_ifs <;> rfl
@[simp] theorem mandibleClose_SelectedLeg (cfg : Config) (s : State) (r : Inputs) :
    (mandibleClose cfg s r).g_InControlState.SelectedLeg = s.g_InControlState.SelectedLeg := by
  unfold mandibleClose; split_ifs <;> rfl
@[simp] theorem mandibleOpen_SelectedLeg (cfg : Config) (s : State) (r : Inputs) :
    (mandibleOpen cfg s r).g_InControlState.SelectedLeg = s.g_InControlState.SelectedLeg := by
  unfold mandibleOpen; split_ifs <;> rfl
@[simp] theorem mandibleSticks_SelectedLeg (s : State) (r : Inputs) :
    (mandibleSticks s r).g_InControlState.SelectedLeg = s.g_InControlState.SelectedLeg := rfl
@[simp] theorem legSticks_SelectedLeg (s : State) (r : Inputs) :
    (legSticks s r).g_InControlState.SelectedLeg = s.g_InControlState.SelectedLeg := rfl
@[simp] theorem mandibleOrLeg_SelectedLeg (cfg : Config) (s : State) (r : Inputs) :
    (mandibleOrLeg cfg s r).g_InControlState.SelectedLeg = s.g_InControlState.SelectedLeg := by
  simp only [mandibleOrLeg]; split_ifs <;> simp
@[simp] theorem holdButton_SelectedLeg (s : State) (r : Inputs) :
    (holdButton s r).g_InControlState.SelectedLeg = s.g_InControlState.SelectedLeg := by
  unfold holdButton; split_ifs <;> rfl
@[simp] theorem gpPlayerFunctions_SelectedLeg (cfg : Config) (s : State) (r : Inputs) :
    (gpPlayerFunctions cfg s r).g_InControlState.SelectedLeg = s.g_InControlState.SelectedLeg := by
  unfold gpPlayerFunctions; split_ifs <;> rfl
@[simp] theorem timeDelay_SelectedLeg (s : State) (r : Inputs) :
    (timeDelay s r).g_InControlState.SelectedLeg = s.g_InControlState.SelectedLeg := rfl
@[simp] theorem bodyPosY_SelectedLeg (s : State) :
    (bodyPosY s).g_InControlState.SelectedLeg = s.g_InControlState.SelectedLeg := rfl

/-! ### Steps that leave `TravelLength` alone -/

@[simp] theorem switchTranslate_TravelLength (s : State) (r : Inputs) :
    (switchTranslate s r).g_InControlState.TravelLength = s.g_InControlState.TravelLength := by
  unfold switchTranslate; split_ifs <;> rfl
@[simp] theorem switchRotate_TravelLength (s : State) (r : Inputs) :
    (switchRotate s r).g_InControlState.TravelLength = s.g_InControlState.TravelLength := by
  unfold switchRotate; split_ifs <;> rfl
@[simp] theorem switchSingleLeg_TravelLength (s : State) (r : Inputs) :
    (switchSingleLeg s r).g_InControlState.TravelLength = s.g_InControlState.TravelLength := by
  unfold switchSingleLeg; split_ifs <;> rfl
@[simp] theorem switchGPPlayer_TravelLength (cfg : Config) (s : State) (r : Inputs) :
    (switchGPPlayer cfg s r).g_InControlState.TravelLength = s.g_InControlState.TravelLength := by
  unfold switchGPPlayer; split_ifs <;> rfl
@[simp] theorem switchModes_TravelLength (cfg : Config) (s : State) (r : Inputs) :
    (switchModes cfg s r).g_InControlState.TravelLength = s.g_InControlState.TravelLength := by
  simp [switchModes]
@[simp] theorem balanceButton_TravelLength (s : State) (r : Inputs) :
    (balanceButton s r).g_InControlState.TravelLength = s.g_InControlState.TravelLength := by
  unfold balanceButton; split_ifs <;> rfl
@[simp] theorem standSit_TravelLength (s : State) (r : Inputs) :
    (standSit s r).g_InControlState.TravelLength = s.g_InControlState.TravelLength := by
  unfold standSit; split_ifs <;> rfl
@[simp] theorem padUp_TravelLength (s : State) (r : Inputs) :
    (padUp s r).g_InControlState.TravelLength = s.g_InControlState.TravelLength := by
  unfold padUp; split_ifs <;> rfl
@[simp] theorem padDown_TravelLength (s : State) (r : Inputs) :
    (padDown s r).g_InControlState.TravelLength = s.g_InControlState.TravelLength := by
  unfold padDown; split_ifs <;> rfl
@[simp] theorem padRight_TravelLength (s : State) (r : Inputs) :
    (padRight s r).g_InControlState.TravelLength = s.g_InControlState.TravelLength := by
  unfold padRight; split_ifs <;> rfl
@[simp] theorem padLeft_TravelLength (s : State) (r : Inputs) :
    (padLeft s r).g_InControlState.TravelLength = s.g_InControlState.TravelLength := by
  unfold padLeft; split_ifs <;> rfl
@[simp] theorem commonFunctions_TravelLength (s : State) (r : Inputs) :
    (commonFunctions s r).g_InControlState.TravelLength = s.g_InControlState.TravelLength := by
  simp [commonFunctions]
@[simp] theorem gaitButton_TravelLength (cfg : Config) (s : State) (r : Inputs) :
    (gaitButton cfg s r).g_InControlState.TravelLength = s.g_InControlState.TravelLength := by
  unfold gaitButton; split_ifs <;> rfl
@[simp] theorem doubleHeightButton_TravelLength (s : State) (r : Inputs) :
    (doubleHeightButton s r).g_InControlState.TravelLength = s.g_InControlState.TravelLength := by
  unfold doubleHeightButton; split_ifs <;> rfl
@[simp] theorem doubleTravelButton_TravelLength (s : State) (r : Inputs) :
    (doubleTravelButton s r).g_InControlState.TravelLength = s.g_InControlState.TravelLength := by
  unfold doubleTravelButton; split_ifs <;> rfl
@[simp] theorem walkMethodButton_TravelLength (s : State) (r : Inputs) :
    (walkMethodButton s r).g_InControlState.TravelLength = s.g_InControlState.TravelLength := by
  unfold walkMethodButton; split_ifs <;> rfl
@[simp] theorem translateSticks_TravelLength (s : State) (r : Inputs) :
    (translateSticks s r).g_InControlState.TravelLength = s.g_InControlState.TravelLength := rfl
@[simp] theorem translateFunctions_TravelLength (s : State) (r : Inputs) :
    (translateFunctions s r).g_InControlState.TravelLength = s.g_InControlState.TravelLength := by
  simp only [translateFunctions]; split_ifs <;> simp
@[simp] theorem rotateFunctions_TravelLength (s : State) (r : Inputs) :
    (rotateFunctions s r).g_InControlState.TravelLength = s.g_InControlState.TravelLength := by
  unfold rotateFunctions; split_ifs <;> rfl
@[simp] theorem legButton_TravelLength (s : State) (r : Inputs) :
    (legButton s r).g_InControlState.TravelLength = s.g_InControlState.TravelLength := by
  unfold legButton; split_ifs <;> rfl
@[simp] theorem mandibleClose_TravelLength (cfg : Config) (s : State) (r : Inputs) :
    (mandibleClose cfg s r).g_InControlState.TravelLength = s.g_InControlState.TravelLength := by
  unfold mandibleClose; split_ifs <;> rfl
@[simp] theorem mandibleOpen_TravelLength (cfg : Config) (s : State) (r : Inputs) :
    (mandibleOpen cfg s r).g_InControlState.TravelLength = s.g_InControlState.TravelLength := by
  unfold mandibleOpen; split_ifs <;> rfl
@[simp] theorem mandibleSticks_TravelLength (s : State) (r : Inputs) :
    (mandibleSticks s r).g_InControlState.TravelLength = s.g_InControlState.TravelLength := rfl
@[simp] theorem legSticks_TravelLength (s : State) (r : Inputs) :
    (legSticks s r).g_InControlState.TravelLength = s.g_InControlState.TravelLength := rfl
@[simp] theorem mandibleOrLeg_TravelLength (cfg : Config) (s : State) (r : Inputs) :
    (mandibleOrLeg cfg s r).g_InControlState.TravelLength = s.g_InControlState.TravelLength := by
  simp only [mandibleOrLeg]; split_ifs <;> simp
@[simp] theorem holdButton_TravelLength (s : State) (r : Inputs) :
    (holdButton s r).g_InControlState.TravelLength = s.g_InControlState.TravelLength := by
  unfold holdButton; split_ifs <;> rfl
@[simp] theorem singleLegFunctions_TravelLength (cfg : Config) (s : State) (r : Inputs) :
    (singleLegFunctions cfg s r).g_InControlState.TravelLength = s.g_InControlState.TravelLength := by
  simp only [singleLegFunctions]; split_ifs <;> simp
@[simp] theorem gpPlayerFunctions_TravelLength (cfg : Config) (s : State) (r : Inputs) :
    (gpPlayerFunctions cfg s r).g_InControlState.TravelLength = s.g_InControlState.TravelLength := by
  unfold gpPlayerFunctions; split_ifs <;> rfl
@[simp] theorem timeDelay_TravelLength (s : State) (r : Inputs) :
    (timeDelay s r).g_InControlState.TravelLength = s.g_InControlState.TravelLength := rfl
@[simp] theorem bodyPosY_TravelLength (s : State) :
    (bodyPosY s).g_InControlState.TravelLength = s.g_InControlState.TravelLength := rfl

/-! ### Steps that leave `fHexOn` alone -/

@[simp] theorem switchTranslate_fHexOn (s : State) (r : Inputs) :
    (switchTranslate s r).g_InControlState.fHexOn = s.g_InControlState.fHexOn := by
  unfold switchTranslate; split_ifs <;> rfl
@[simp] theorem switchRotate_fHexOn (s : State) (r : Inputs) :
    (switchRotate s r).g_InControlState.fHexOn = s.g_InControlState.fHexOn := by
  unfold switchRotate; split_ifs <;> rfl
@[simp] theorem switchSingleLeg_fHexOn (s : State) (r : Inputs) :
    (switchSingleLeg s r).g_InControlState.fHexOn = s.g_InControlState.fHexOn := by
  unfold switchSingleLeg; split_ifs <;> rfl
@[simp] theorem switchGPPlayer_fHexOn (cfg : Config) (s : State) (r : Inputs) :
    (switchGPPlayer cfg s r).g_InControlState.fHexOn = s.g_InControlState.fHexOn := by
  unfold switchGPPlayer; split_ifs <;> rfl
@[simp] theorem switchModes_fHexOn (cfg : Config) (s : State) (r : Inputs) :
    (switchModes cfg s r).g_InControlState.fHexOn = s.g_InControlState.fHexOn := by
  simp [switchModes]
@[simp] theorem balanceButton_fHexOn (s : State) (r : Inputs) :
    (balanceButton s r).g_InControlState.fHexOn = s.g_InControlState.fHexOn := by
  unfold balanceButton; split_ifs <;> rfl
@[simp] theorem standSit_fHexOn (s : State) (r : Inputs) :
    (standSit s r).g_InControlState.fHexOn = s.g_InControlState.fHexOn := by
  unfold standSit; split_ifs <;> rfl
@[simp] theorem padUp_fHexOn (s : State) (r : Inputs) :
    (padUp s r).g_InControlState.fHexOn = s.g_InControlState.fHexOn := by
  unfold padUp; split_ifs <;> rfl
@[simp] theorem padDown_fHexOn (s : State) (r : Inputs) :
    (padDown s r).g_InControlState.fHexOn = s.g_InControlState.fHexOn := by
  unfold padDown; split_ifs <;> rfl
@[simp] theorem padRight_fHexOn (s : State) (r : Inputs) :
    (padRight s r).g_InControlState.fHexOn = s.g_InControlState.fHexOn := by
  unfold padRight; split_ifs <;> rfl
@[simp] theorem padLeft_fHexOn (s : State) (r : Inputs) :
    (padLeft s r).g_InControlState.fHexOn = s.g_InControlState.fHexOn := by
  unfold padLeft; split_ifs <;> rfl
@[simp] theorem commonFunctions_fHexOn (s : State) (r : Inputs) :
    (commonFunctions s r).g_InControlState.fHexOn = s.g_InControlState.fHexOn := by
  simp [commonFunctions]
@[simp] theorem gaitButton_fHexOn (cfg : Config) (s : State) (r : Inputs) :
    (gaitButton cfg s r).g_InControlState.fHexOn = s.g_InControlState.fHexOn := by
  unfold gaitButton; split_ifs <;> rfl
@[simp] theorem doubleHeightButton_fHexOn (s : State) (r : Inputs) :
    (doubleHeightButton s r).g_InControlState.fHexOn = s.g_InControlState.fHexOn := by
  unfold doubleHeightButton; split_ifs <;> rfl
@[simp] theorem doubleTravelButton_fHexOn (s : State) (r : Inputs) :
    (doubleTravelButton s r).g_InControlState.fHexOn = s.g_InControlState.fHexOn := by
  unfold doubleTravelButton; split_ifs <;> rfl
@[simp] theorem walkMethodButton_fHexOn (s : State) (r : Inputs) :
    (walkMethodButton s r).g_InControlState.fHexOn = s.g_InControlState.fHexOn := by
  unfold walkMethodButton; split_ifs <;> rfl
@[simp] theorem walkSticks_fHexOn (s : State) (r : Inputs) :
    (walkSticks s r).g_InControlState.fHexOn = s.g_InControlState.fHexOn := by
  unfold walkSticks; split_ifs <;> rfl
@[simp] theorem halveTravel_fHexOn (s : State) :
    (halveTravel s).g_InControlState.fHexOn = s.g_InControlState.fHexOn := by
  unfold halveTravel; split_ifs <;> rfl
@[simp] theorem walkRotation_fHexOn (s : State) (r : Inputs) :
    (walkRotation s r).g_InControlState.fHexOn = s.g_InControlState.fHexOn := rfl
@[simp] theorem walkFunctions_fHexOn (cfg : Config) (s : State) (r : Inputs) :
    (walkFunctions cfg s r).g_InControlState.fHexOn = s.g_InControlState.fHexOn := by
  simp only [walkFunctions]; split_ifs <;> simp
@[simp] theorem translateSticks_fHexOn (s : State) (r : Inputs) :
    (translateSticks s r).g_InControlState.fHexOn = s.g_InControlState.fHexOn := rfl
@[simp] theorem translateFunctions_fHexOn (s : State) (r : Inputs) :
    (translateFunctions s r).g_InControlState.fHexOn = s.g_InControlState.fHexOn := by
  simp only [translateFunctions]; split_ifs <;> simp
@[simp] theorem rotateFunctions_fHexOn (s : State) (r : Inputs) :
    (rotateFunctions s r).g_InControlState.fHexOn = s.g_InControlState.fHexOn := by
  unfold rotateFunctions; split_ifs <;> rfl
@[simp] theorem legButton_fHexOn (s : State) (r : Inputs) :
    (legButton s r).g_InControlState.fHexOn = s.g_InControlState.fHexOn := by
  unfold legButton; split_ifs <;> rfl
@[simp] theorem mandibleClose_fHexOn (cfg : Config) (s : State) (r : Inputs) :
    (mandibleClose cfg s r).g_InControlState.fHexOn = s.g_InControlState.fHexOn := by
  unfold mandibleClose; split_ifs <;> rfl
@[simp] theorem mandibleOpen_fHexOn (cfg : Config) (s : State) (r : Inputs) :
    (mandibleOpen cfg s r).g_InControlState.fHexOn = s.g_InControlState.fHexOn := by
  unfold mandibleOpen; split_ifs <;> rfl
@[simp] theorem mandibleSticks_fHexOn (s : State) (r : Inputs) :
    (mandibleSticks s r).g_InControlState.fHexOn = s.g_InControlState.fHexOn := rfl
@[simp] theorem legSticks_fHexOn (s : State) (r : Inputs) :
    (legSticks s r).g_InControlState.fHexOn = s.g_InControlState.fHexOn := rfl
@[simp] theorem mandibleOrLeg_fHexOn (cfg : Config) (s : State) (r : Inputs) :
    (mandibleOrLeg cfg s r).g_InControlState.fHexOn = s.g_InControlState.fHexOn := by
  simp only [mandibleOrLeg]; split_ifs <;> simp
@[simp] theorem holdButton_fHexOn (s : State) (r : Inputs) :
    (holdButton s r).g_InControlState.fHexOn = s.g_InControlState.fHexOn := by
  unfold holdButton; split_ifs <;> rfl
@[simp] theorem singleLegFunctions_fHexOn (cfg : Config) (s : State) (r : Inputs) :
    (singleLegFunctions cfg s r).g_InControlState.fHexOn = s.g_InControlState.fHexOn := by
  simp only [singleLegFunctions]; split_ifs <;> simp
@[simp] theorem gpPlayerFunctions_fHexOn (cfg : Config) (s : State) (r : Inputs) :
    (gpPlayerFunctions cfg s r).g_InControlState.fHexOn = s.g_InControlState.fHexOn := by
  unfold gpPlayerFunctions; split_ifs <;> rfl
@[simp] theorem timeDelay_fHexOn (s : State) (r : Inputs) :
    (timeDelay s r).g_InControlState.fHexOn = s.g_InControlState.fHexOn := rfl
@[simp] theorem hexOn_fHexOn (cfg : Config) (s : State) (r : Inputs) :
    (hexOn cfg s r).g_InControlState.fHexOn = s.g_InControlState.fHexOn := by
  simp [hexOn]
@[simp] theorem bodyPosY_fHexOn (s : State) :
    (bodyPosY s).g_InControlState.fHexOn = s.g_InControlState.fHexOn := rfl

/-! ### Steps that leave `ManClos` alone -/

@[simp] theorem PS2TurnRobotOff_ManClos (s : State) :
    (PS2TurnRobotOff s).g_InControlState.ManClos = s.g_InControlState.ManClos := rfl
@[simp] theorem startButton_ManClos (s : State) (r : Inputs) :
    (startButton s r).g_InControlState.ManClos = s.g_InControlState.ManClos := by
  unfold startButton; split_ifs <;> rfl
@[simp] theorem afterStart_ManClos (s : State) (r : Inputs) :
    (afterStart s r).g_InControlState.ManClos = s.g_InControlState.ManClos := by
  simp [afterStart]
@[simp] theorem switchTranslate_ManClos (s : State) (r : Inputs) :
    (switchTranslate s r).g_InControlState.ManClos = s.g_InControlState.ManClos := by
  unfold switchTranslate; split_ifs <;> rfl
@[simp] theorem switchRotate_ManClos (s : State) (r : Inputs) :
    (switchRotate s r).g_InControlState.ManClos = s.g_InControlState.ManClos := by
  unfold switchRotate; split_ifs <;> rfl
@[simp] theorem switchSingleLeg_ManClos (s : State) (r : Inputs) :
    (switchSingleLeg s r).g_InControlState.ManClos = s.g_InControlState.ManClos := by
  unfold switchSingleLeg; split_ifs <;> rfl
@[simp] theorem switchGPPlayer_ManClos (cfg : Config) (s : State) (r : Inputs) :
    (switchGPPlayer cfg s r).g_InControlState.ManClos = s.g_InControlState.ManClos := by
  unfold switchGPPlayer; split_ifs <;> rfl
@[simp] theorem switchModes_ManClos (cfg : Config) (s : State) (r : Inputs) :
    (switchModes cfg s r).g_InControlState.ManClos = s.g_InControlState.ManClos := by
  simp [switchModes]
@[simp] theorem balanceButton_ManClos (s : State) (r : Inputs) :
    (balanceButton s r).g_InControlState.ManClos = s.g_InControlState.ManClos := by
  unfold balanceButton; split_ifs <;> rfl
@[simp] theorem standSit_ManClos (s : State) (r : Inputs) :
    (standSit s r).g_InControlState.ManClos = s.g_InControlState.ManClos := by
  unfold standSit; split_ifs <;> rfl
@[simp] theorem padUp_ManClos (s : State) (r : Inputs) :
    (padUp s r).g_InControlState.ManClos = s.g_InControlState.ManClos := by
  unfold padUp; split_ifs <;> rfl
@[simp] theorem padDown_ManClos (s : State) (r : Inputs) :
    (padDown s r).g_InControlState.ManClos = s.g_InControlState.ManClos := by
  unfold padDown; split_ifs <;> rfl
@[simp] theorem padRight_ManClos (s : State) (r : Inputs) :
    (padRight s r).g_InControlState.ManClos = s.g_InControlState.ManClos := by
  unfold padRight; split_ifs <;> rfl
@[simp] theorem padLeft_ManClos (s : State) (r : Inputs) :
    (padLeft s r).g_InControlState.ManClos = s.g_InControlState.ManClos := by
  unfold padLeft; split_ifs <;> rfl
@[simp] theorem commonFunctions_ManClos (s : State) (r : Inputs) :
    (commonFunctions s r).g_InControlState.ManClos = s.g_InControlState.ManClos := by
  simp [commonFunctions]
@[simp] theorem gaitButton_ManClos (cfg : Config) (s : State) (r : Inputs) :
    (gaitButton cfg s r).g_InControlState.ManClos = s.g_InControlState.ManClos := by
  unfold gaitButton; split_ifs <;> rfl
@[simp] theorem doubleHeightButton_ManClos (s : State) (r : Inputs) :
    (doubleHeightButton s r).g_InControlState.ManClos = s.g_InControlState.ManClos := by
  unfold doubleHeightButton; split_ifs <;> rfl
@[simp] theorem doubleTravelButton_ManClos (s : State) (r : Inputs) :
    (doubleTravelButton s r).g_InControlState.ManClos = s.g_InControlState.ManClos := by
  unfold doubleTravelButton; split_ifs <;> rfl
@[simp] theorem walkMethodButton_ManClos (s : State) (r : Inputs) :
    (walkMethodButton s r).g_InControlState.ManClos = s.g_InControlState.ManClos := by
  unfold walkMethodButton; split_ifs <;> rfl
@[simp] theorem walkSticks_ManClos (s : State) (r : Inputs) :
    (walkSticks s r).g_InControlState.ManClos = s.g_InControlState.ManClos := by
  unfold walkSticks; split_ifs <;> rfl
@[simp] theorem halveTravel_ManClos (s : State) :
    (halveTravel s).g_InControlState.ManClos = s.g_InControlState.ManClos := by
  unfold halveTravel; split_ifs <;> rfl
@[simp] theorem walkRotation_ManClos (s : State) (r : Inputs) :
    (walkRotation s r).g_InControlState.ManClos = s.g_InControlState.ManClos := rfl
@[simp] theorem walkFunctions_ManClos (cfg : Config) (s : State) (r : Inputs) :
    (walkFunctions cfg s r).g_InControlState.ManClos = s.g_InControlState.ManClos := by
  simp only [walkFunctions]; split_ifs <;> simp
@[simp] theorem translateSticks_ManClos (s : State) (r : Inputs) :
    (translateSticks s r).g_InControlState.ManClos = s.g_InControlState.ManClos := rfl
@[simp] theorem translateFunctions_ManClos (s : State) (r : Inputs) :
    (translateFunctions s r).g_InControlState.ManClos = s.g_InControlState.ManClos := by
  simp only [translateFunctions]; split_ifs <;> simp
@[simp] theorem rotateFunctions_ManClos (s : State) (r : Inputs) :
    (rotateFunctions s r).g_InControlState.ManClos = s.g_InControlState.ManClos := by
  unfold rotateFunctions; split_ifs <;> rfl
@[simp] theorem legButton_ManClos (s : State) (r : Inputs) :
    (legButton s r).g_InControlState.ManClos = s.g_InControlState.ManClos := by
  unfold legButton; split_ifs <;> rfl
@[simp] theorem mandibleSticks_ManClos (s : State) (r : Inputs) :
    (mandibleSticks s r).g_InControlState.ManClos = s.g_InControlState.ManClos := rfl
@[simp] theorem legSticks_ManClos (s : State) (r : Inputs) :
    (legSticks s r).g_InControlState.ManClos = s.g_InControlState.ManClos := rfl
@[simp] theorem holdButton_ManClos (s : State) (r : Inputs) :
    (holdButton s r).g_InControlState.ManClos = s.g_InControlState.ManClos := by
  unfold holdButton; split_ifs <;> rfl
@[simp] theorem gpPlayerFunctions_ManClos (cfg : Config) (s : State) (r : Inputs) :
    (gpPlayerFunctions cfg s r).g_InControlState.ManClos = s.g_InControlState.ManClos := by
  unfold gpPlayerFunctions; split_ifs <;> rfl
@[simp] theorem timeDelay_ManClos (s : State) (r : Inputs) :
    (timeDelay s r).g_InControlState.ManClos = s.g_InControlState.ManClos := rfl
@[simp] theorem bodyPosY_ManClos (s : State) :
    (bodyPosY s).g_InControlState.ManClos = s.g_InControlState.ManClos := rfl

/-! ### Steps that leave `WalkMethod` alone -/

@[simp] theorem PS2TurnRobotOff_WalkMethod (s : State) :
    (PS2TurnRobotOff s).WalkMethod = s.WalkMethod := rfl
@[simp] theorem startButton_WalkMethod (s : State) (r : Inputs) :
    (startButton s r).WalkMethod = s.WalkMethod := by
  unfold startButton; split_ifs <;> rfl
@[simp] theorem afterStart_WalkMethod (s : State) (r : Inputs) :
    (afterStart s r).WalkMethod = s.WalkMethod := by
  simp [afterStart]
@[simp] theorem switchTranslate_WalkMethod (s : State) (r : Inputs) :
    (switchTranslate s r).WalkMethod = s.WalkMethod := by
  unfold switchTranslate; split_ifs <;> rfl
@[simp] theorem switchRotate_WalkMethod (s : State) (r : Inputs) :
    (switchRotate s r).WalkMethod = s.WalkMethod := by
  unfold switchRotate; split_ifs <;> rfl
@[simp] theorem switchSingleLeg_WalkMethod (s : State) (r : Inputs) :
    (switchSingleLeg s r).WalkMethod = s.WalkMethod := by
  unfold switchSingleLeg; split_ifs <;> rfl
@[simp] theorem switchGPPlayer_WalkMethod (cfg : Config) (s : State) (r : Inputs) :
    (switchGPPlayer cfg s r).WalkMethod = s.WalkMethod := by
  unfold switchGPPlayer; split_ifs <;> rfl
@[simp] theorem switchModes_WalkMethod (cfg : Config) (s : State) (r : Inputs) :
    (switchModes cfg s r).WalkMethod = s.WalkMethod := by
  simp [switchModes]
@[simp] theorem balanceButton_WalkMethod (s : State) (r : Inputs) :
    (balanceButton s r).WalkMethod = s.WalkMethod := by
  unfold balanceButton; split_ifs <;> rfl
@[simp] theorem standSit_WalkMethod (s : State) (r : Inputs) :
    (standSit s r).WalkMethod = s.WalkMethod := by
  unfold standSit; split_ifs <;> rfl
@[simp] theorem padUp_WalkMethod (s : State) (r : Inputs) :
    (padUp s r).WalkMethod = s.WalkMethod := by
  unfold padUp; split_ifs <;> rfl
@[simp] theorem padDown_WalkMethod (s : State) (r : Inputs) :
    (padDown s r).WalkMethod = s.WalkMethod := by
  unfold padDown; split_ifs <;> rfl
@[simp] theorem padRight_WalkMethod (s : State) (r : Inputs) :
    (padRight s r).WalkMethod = s.WalkMethod := by
  unfold padRight; split_ifs <;> rfl
@[simp] theorem padLeft_WalkMethod (s : State) (r : Inputs) :
    (padLeft s r).WalkMethod = s.WalkMethod := by
  unfold padLeft; split_ifs <;> rfl
@[simp] theorem commonFunctions_WalkMethod (s : State) (r : Inputs) :
    (commonFunctions s r).WalkMethod = s.WalkMethod := by
  simp [commonFunctions]
@[simp] theorem gaitButton_WalkMethod (cfg : Config) (s : State) (r : Inputs) :
    (gaitButton cfg s r).WalkMethod = s.WalkMethod := by
  unfold gaitButton; split_ifs <;> rfl
@[simp] theorem doubleHeightButton_WalkMethod (s : State) (r : Inputs) :
    (doubleHeightButton s r).WalkMethod = s.WalkMethod := by
  unfold doubleHeightButton; split_ifs <;> rfl
@[simp] theorem doubleTravelButton_WalkMethod (s : State) (r : Inputs) :
    (doubleTravelButton s r).WalkMethod = s.WalkMethod := by
  unfold doubleTravelButton; split_ifs <;> rfl
@[simp] theorem walkSticks_WalkMethod (s : State) (r : Inputs) :
    (walkSticks s r).WalkMethod = s.WalkMethod := by
  unfold walkSticks; split_ifs <;> rfl
@[simp] theorem halveTravel_WalkMethod (s : State) : (halveTravel s).WalkMethod = s.WalkMethod := by
  unfold halveTravel; split_ifs <;> rfl
@[simp] theorem walkRotation_WalkMethod (s : State) (r : Inputs) :
    (walkRotation s r).WalkMethod = s.WalkMethod := rfl
@[simp] theorem translateSticks_WalkMethod (s : State) (r : Inputs) :
    (translateSticks s r).WalkMethod = s.WalkMethod := rfl
@[simp] theorem translateFunctions_WalkMethod (s : State) (r : Inputs) :
    (translateFunctions s r).WalkMethod = s.WalkMethod := by
  simp only [translateFunctions]; split_ifs <;> simp
@[simp] theorem rotateFunctions_WalkMethod (s : State) (r : Inputs) :
    (rotateFunctions s r).WalkMethod = s.WalkMethod := by
  unfold rotateFunctions; split_ifs <;> rfl
@[simp] theorem legButton_WalkMethod (s : State) (r : Inputs) :
    (legButton s r).WalkMethod = s.WalkMethod := by
  unfold legButton; split_ifs <;> rfl
@[simp] theorem mandibleClose_WalkMethod (cfg : Config) (s : State) (r : Inputs) :
    (mandibleClose cfg s r).WalkMethod = s.WalkMethod := by
  unfold mandibleClose; split_ifs <;> rfl
@[simp] theorem mandibleOpen_WalkMethod (cfg : Config) (s : State) (r : Inputs) :
    (mandibleOpen cfg s r).WalkMethod = s.WalkMethod := by
  unfold mandibleOpen; split_ifs <;> rfl
@[simp] theorem mandibleSticks_WalkMethod (s : State) (r : Inputs) :
    (mandibleSticks s r).WalkMethod = s.WalkMethod := rfl
@[simp] theorem legSticks_WalkMethod (s : State) (r : Inputs) :
    (legSticks s r).WalkMethod = s.WalkMethod := rfl
@[simp] theorem mandibleOrLeg_WalkMethod (cfg : Config) (s : State) (r : Inputs) :
    (mandibleOrLeg cfg s r).WalkMethod = s.WalkMethod := by
  simp only [mandibleOrLeg]; split_ifs <;> simp
@[simp] theorem holdButton_WalkMethod (s : State) (r : Inputs) :
    (holdButton s r).WalkMethod = s.WalkMethod := by
  unfold holdButton; split_ifs <;> rfl
@[simp] theorem singleLegFunctions_WalkMethod (cfg : Config) (s : State) (r : Inputs) :
    (singleLegFunctions cfg s r).WalkMethod = s.WalkMethod := by
  simp only [singleLegFunctions]; split_ifs <;> simp
@[simp] theorem gpPlayerFunctions_WalkMethod (cfg : Config) (s : State) (r : Inputs) :
    (gpPlayerFunctions cfg s r).WalkMethod = s.WalkMethod := by
  unfold gpPlayerFunctions; split_ifs <;> rfl
@[simp] theorem timeDelay_WalkMethod (s : State) (r : Inputs) :
    (timeDelay s r).WalkMethod = s.WalkMethod := rfl
@[simp] theorem bodyPosY_WalkMethod (s : State) : (bodyPosY s).WalkMethod = s.WalkMethod := rfl

/-! ### Steps that leave `DoubleTravelOn` alone -/

@[simp] theorem PS2TurnRobotOff_DoubleTravelOn (s : State) :
    (PS2TurnRobotOff s).DoubleTravelOn = s.DoubleTravelOn := rfl
@[simp] theorem startButton_DoubleTravelOn (s : State) (r : Inputs) :
    (startButton s r).DoubleTravelOn = s.DoubleTravelOn := by
  unfold startButton; split_ifs <;> rfl
@[simp] theorem afterStart_DoubleTravelOn (s : State) (r : Inputs) :
    (afterStart s r).DoubleTravelOn = s.DoubleTravelOn := by
  simp [afterStart]
@[simp] theorem switchTranslate_DoubleTravelOn (s : State) (r : Inputs) :
    (switchTranslate s r).DoubleTravelOn = s.DoubleTravelOn := by
  unfold switchTranslate; split_ifs <;> rfl
@[simp] theorem switchRotate_DoubleTravelOn (s : State) (r : Inputs) :
    (switchRotate s r).DoubleTravelOn = s.DoubleTravelOn := by
  unfold switchRotate; split_ifs <;> rfl
@[simp] theorem switchSingleLeg_DoubleTravelOn (s : State) (r : Inputs) :
    (switchSingleLeg s r).DoubleTravelOn = s.DoubleTravelOn := by
  unfold switchSingleLeg; split_ifs <;> rfl
@[simp] theorem switchGPPlayer_DoubleTravelOn (cfg : Config) (s : State) (r : Inputs) :
    (switchGPPlayer cfg s r).DoubleTravelOn = s.DoubleTravelOn := by
  unfold switchGPPlayer; split_ifs <;> rfl
@[simp] theorem switchModes_DoubleTravelOn (cfg : Config) (s : State) (r : Inputs) :
    (switchModes cfg s r).DoubleTravelOn = s.DoubleTravelOn := by
  simp [switchModes]
@[simp] theorem balanceButton_DoubleTravelOn (s : State) (r : Inputs) :
    (balanceButton s r).DoubleTravelOn = s.DoubleTravelOn := by
  unfold balanceButton; split_ifs <;> rfl
@[simp] theorem standSit_DoubleTravelOn (s : State) (r : Inputs) :
    (standSit s r).DoubleTravelOn = s.DoubleTravelOn := by
  unfold standSit; split_ifs <;> rfl
@[simp] theorem padUp_DoubleTravelOn (s : State) (r : Inputs) :
    (padUp s r).DoubleTravelOn = s.DoubleTravelOn := by
  unfold padUp; split_ifs <;> rfl
@[simp] theorem padDown_DoubleTravelOn (s : State) (r : Inputs) :
    (padDown s r).DoubleTravelOn = s.DoubleTravelOn := by
  unfold padDown; split_ifs <;> rfl
@[simp] theorem padRight_DoubleTravelOn (s : State) (r : Inputs) :
    (padRight s r).DoubleTravelOn = s.DoubleTravelOn := by
  unfold padRight; split_ifs <;> rfl
@[simp] theorem padLeft_DoubleTravelOn (s : State) (r : Inputs) :
    (padLeft s r).DoubleTravelOn = s.DoubleTravelOn := by
  unfold padLeft; split_ifs <;> rfl
@[simp] theorem commonFunctions_DoubleTravelOn (s : State) (r : Inputs) :
    (commonFunctions s r).DoubleTravelOn = s.DoubleTravelOn := by
  simp [commonFunctions]
@[simp] theorem gaitButton_DoubleTravelOn (cfg : Config) (s : State) (r : Inputs) :
    (gaitButton cfg s r).DoubleTravelOn = s.DoubleTravelOn := by
  unfold gaitButton; split_ifs <;> rfl
@[simp] theorem doubleHeightButton_DoubleTravelOn (s : State) (r : Inputs) :
    (doubleHeightButton s r).DoubleTravelOn = s.DoubleTravelOn := by
  unfold doubleHeightButton; split_ifs <;> rfl
@[simp] theorem walkMethodButton_DoubleTravelOn (s : State) (r : Inputs) :
    (walkMethodButton s r).DoubleTravelOn = s.DoubleTravelOn := by
  unfold walkMethodButton; split_ifs <;> rfl
@[simp] theorem walkSticks_DoubleTravelOn (s : State) (r : Inputs) :
    (walkSticks s r).DoubleTravelOn = s.DoubleTravelOn := by
  unfold walkSticks; split_ifs <;> rfl
@[simp] theorem halveTravel_DoubleTravelOn (s : State) :
    (halveTravel s).DoubleTravelOn = s.DoubleTravelOn := by
  unfold halveTravel; split_ifs <;> rfl
@[simp] theorem walkRotation_DoubleTravelOn (s : State) (r : Inputs) :
    (walkRotation s r).DoubleTravelOn = s.DoubleTravelOn := rfl
@[simp] theorem translateSticks_DoubleTravelOn (s : State) (r : Inputs) :
    (translateSticks s r).DoubleTravelOn = s.DoubleTravelOn := rfl
@[simp] theorem translateFunctions_DoubleTravelOn (s : State) (r : Inputs) :
    (translateFunctions s r).DoubleTravelOn = s.DoubleTravelOn := by
  simp only [translateFunctions]; split_ifs <;> simp
@[simp] theorem rotateFunctions_DoubleTravelOn (s : State) (r : Inputs) :
    (rotateFunctions s r).DoubleTravelOn = s.DoubleTravelOn := by
  unfold rotateFunctions; split_ifs <;> rfl
@[simp] theorem legButton_DoubleTravelOn (s : State) (r : Inputs) :
    (legButton s r).DoubleTravelOn = s.DoubleTravelOn := by
  unfold legButton; split_ifs <;> rfl
@[simp] theorem mandibleClose_DoubleTravelOn (cfg : Config) (s : State) (r : Inputs) :
    (mandibleClose cfg s r).DoubleTravelOn = s.DoubleTravelOn := by
  unfold mandibleClose; split_ifs <;> rfl
@[simp] theorem mandibleOpen_DoubleTravelOn (cfg : Config) (s : State) (r : Inputs) :
    (mandibleOpen cfg s r).DoubleTravelOn = s.DoubleTravelOn := by
  unfold mandibleOpen; split_ifs <;> rfl
@[simp] theorem mandibleSticks_DoubleTravelOn (s : State) (r : Inputs) :
    (mandibleSticks s r).DoubleTravelOn = s.DoubleTravelOn := rfl
@[simp] theorem legSticks_DoubleTravelOn (s : State) (r : Inputs) :
    (legSticks s r).DoubleTravelOn = s.DoubleTravelOn := rfl
@[simp] theorem mandibleOrLeg_DoubleTravelOn (cfg : Config) (s : State) (r : Inputs) :
    (mandibleOrLeg cfg s r).DoubleTravelOn = s.DoubleTravelOn := by
  simp only [mandibleOrLeg]; split_ifs <;> simp
@[simp] theorem holdButton_DoubleTravelOn (s : State) (r : Inputs) :
    (holdButton s r).DoubleTravelOn = s.DoubleTravelOn := by
  unfold holdButton; split_ifs <;> rfl
@[simp] theorem singleLegFunctions_DoubleTravelOn (cfg : Config) (s : State) (r : Inputs) :
    (singleLegFunctions cfg s r).DoubleTravelOn = s.DoubleTravelOn := by
  simp only [singleLegFunctions]; split_ifs <;> simp
@[simp] theorem gpPlayerFunctions_DoubleTravelOn (cfg : Config) (s : State) (r : Inputs) :
    (gpPlayerFunctions cfg s r).DoubleTravelOn = s.DoubleTravelOn := by
  unfold gpPlayerFunctions; split_ifs <;> rfl
@[simp] theorem timeDelay_DoubleTravelOn (s : State) (r : Inputs) :
    (timeDelay s r).DoubleTravelOn = s.DoubleTravelOn := rfl
@[simp] theorem bodyPosY_DoubleTravelOn (s : State) :
    (bodyPosY s).DoubleTravelOn = s.DoubleTravelOn := rfl

/-! ## C1: watchdog forced shutdown -/

/-- C1. From a state with the hexapod on and the error count at 0, six
consecutive cycles whose packets fail the validity test end with the hexapod
off, `BodyPos`, `BodyRot1` and `TravelLength` all zero and `SelectedLeg = 255`;
after the first five of them the hexapod is still on and the error count
is 5. -/
theorem watchdog_forced_shutdown (cfg : Config) (s : State) (r1 r2 r3 r4 r5 r6 : Inputs)
    (h1 : analogModeOK r1 = false) (h2 : analogModeOK r2 = false)
    (h3 : analogModeOK r3 = false) (h4 : analogModeOK r4 = false)
    (h5 : analogModeOK r5 = false) (h6 : analogModeOK r6 = false)
    (hon : s.g_InControlState.fHexOn = true) (herr : s.g_sPS2ErrorCnt = 0) :
    (runCycles cfg s [r1, r2, r3, r4, r5, r6]).g_InControlState.fHexOn = false
    ∧ (runCycles cfg s [r1, r2, r3, r4, r5, r6]).g_InControlState.BodyPos = ⟨0, 0, 0⟩
    ∧ (runCycles cfg s [r1, r2, r3, r4, r5, r6]).g_InControlState.BodyRot1 = ⟨0, 0, 0⟩
    ∧ (runCycles cfg s [r1, r2, r3, r4, r5, r6]).g_InControlState.TravelLength = ⟨0, 0, 0⟩
    ∧ (runCycles cfg s [r1, r2, r3, r4, r5, r6]).g_InControlState.SelectedLeg = 255
    ∧ (runCycles cfg s [r1, r2, r3, r4, r5]).g_InControlState.fHexOn = true
    ∧ (runCycles cfg s [r1, r2, r3, r4, r5]).g_sPS2ErrorCnt = 5 := by
  simp [runCycles, ControlInput_lost, h1, h2, h3, h4, h5, h6, lostCycle, herr, hon,
    MAXPS2ERRORCNT, PS2TurnRobotOff]

/-- Witness for C1: the walking hexapod loses the controller for six cycles. -/
theorem watchdog_forced_shutdown_witness :
    analogModeOK lostPacket = false
    ∧ walkingState.g_InControlState.fHexOn = true ∧ walkingState.g_sPS2ErrorCnt = 0
    ∧ (runCycles sampleConfig walkingState
        [lostPacket, lostPacket, lostPacket, lostPacket, lostPacket, lostPacket]
      ).g_InControlState.fHexOn = false :=
  ⟨by decide, by decide, by decide,
    (watchdog_forced_shutdown sampleConfig walkingState
      lostPacket lostPacket lostPacket lostPacket lostPacket lostPacket
      (by decide) (by decide) (by decide) (by decide) (by decide) (by decide)
      (by decide) (by decide)).1⟩

/-! ## C2: the Start button while the hexapod is on -/

/-- C2. In a state with the hexapod on, a valid cycle with a Start edge,
whatever the other buttons and stick bytes, ends with the hexapod off,
`BodyPos`, `BodyRot1` and `TravelLength` zero, `g_BodyYOffset` and
`g_BodyYShift` zero and `SelectedLeg = 255`. -/
theorem power_toggle_while_on (cfg : Config) (s : State) (r : Inputs)
    (hok : analogModeOK r = true) (hstart : r.ButtonPressed PSB.START = true)
    (hon : s.g_InControlState.fHexOn = true) :
    (ControlInput cfg s r).g_InControlState.fHexOn = false
    ∧ (ControlInput cfg s r).g_InControlState.BodyPos = ⟨0, 0, 0⟩
    ∧ (ControlInput cfg s r).g_InControlState.BodyRot1 = ⟨0, 0, 0⟩
    ∧ (ControlInput cfg s r).g_InControlState.TravelLength = ⟨0, 0, 0⟩
    ∧ (ControlInput cfg s r).g_BodyYOffset = 0
    ∧ (ControlInput cfg s r).g_BodyYShift = 0
    ∧ (ControlInput cfg s r).g_InControlState.SelectedLeg = 255 := by
  simp [ControlInput_valid, hok, validCycle, afterStart, startButton, hstart, hon,
    PS2TurnRobotOff, bodyPosY, arduinoMax]

/-- Witness for C2: Start pressed while walking with the left stick pushed. -/
theorem power_toggle_while_on_witness :
    analogModeOK startPacket = true ∧ startPacket.ButtonPressed PSB.START = true
    ∧ walkingState.g_InControlState.fHexOn = true
    ∧ (ControlInput sampleConfig walkingState startPacket).g_InControlState.TravelLength
        = ⟨0, 0, 0⟩ :=
  ⟨by decide, by decide, by decide,
    (power_toggle_while_on sampleConfig walkingState startPacket
      (by decide) (by decide) (by decide)).2.2.2.1⟩

/-! ## C3: the Start button while the hexapod is off -/

/-- The steps that run while the hexapod is on never look at the Start
edge. -/
theorem hexOn_withoutStart (cfg : Config) (s : State) (r : Inputs) :
    hexOn cfg s (withoutStart r) = hexOn cfg s r := by
  simp [hexOn, switchModes, switchTranslate, switchRotate, switchSingleLeg, switchGPPlayer,
    commonFunctions, balanceButton, standSit, padUp, padDown, padRight, padLeft,
    walkFunctions, gaitButton, doubleHeightButton, doubleTravelButton, walkMethodButton,
    walkSticks, walkRotation, translateFunctions, translateSticks, rotateFunctions,
    singleLegFunctions, legButton, mandibleOrLeg, mandibleClose, mandibleOpen, mandibleSticks,
    legSticks, holdButton, gpPlayerFunctions, timeDelay, withoutStart]

/-- C3, counterexample. The hexapod is off and at rest; a valid packet carries
a Start edge with the left stick at `x = 228`.  The cycle switches the hexapod
on and, in the same cycle, maps the stick: `TravelLength` goes from `(0,0,0)`
to `(-50,0,0)` and `InputTimeDelay` from 128 to 28, so the control state is
not the previous one with only `fHexOn` set. -/
theorem power_toggle_while_off_counterexample :
    analogModeOK startPacket = true ∧ startPacket.ButtonPressed PSB.START = true
    ∧ restState.g_InControlState.fHexOn = false
    ∧ restState.g_InControlState.TravelLength = ⟨0, 0, 0⟩
    ∧ restState.g_InControlState.InputTimeDelay = 128
    ∧ (ControlInput sampleConfig restState startPacket).g_InControlState.fHexOn = true
    ∧ (ControlInput sampleConfig restState startPacket).g_InControlState.TravelLength
        = ⟨-50, 0, 0⟩
    ∧ (ControlInput sampleConfig restState startPacket).g_InControlState.InputTimeDelay = 28
    ∧ (ControlInput sampleConfig restState startPacket).g_InControlState
        ≠ { restState.g_InControlState with fHexOn := true } := by
  decide

/-- C3, amended. In a state with the hexapod off, a valid cycle with a Start
edge switches the hexapod on, the Start handling itself changing nothing but
`fHexOn` (and the cleared error count); the rest of the cycle then runs as
for a hexapod that is on: the cycle ends in the very state that the same
packet without its Start edge produces from the state with `fHexOn` set. -/
theorem power_toggle_while_off (cfg : Config) (s : State) (r : Inputs)
    (hok : analogModeOK r = true) (hstart : r.ButtonPressed PSB.START = true)
    (hoff : s.g_InControlState.fHexOn = false) :
    afterStart s r = { s with g_sPS2ErrorCnt := 0, g_InControlState.fHexOn := true }
    ∧ (ControlInput cfg s r).g_InControlState.fHexOn = true
    ∧ ControlInput cfg s r
        = ControlInput cfg { s with g_InControlState.fHexOn := true } (withoutStart r) := by
  have hok2 : analogModeOK (withoutStart r) = true := hok
  have hst2 : (withoutStart r).ButtonPressed PSB.START = false := by simp [withoutStart]
  have e1 : afterStart s r = { s with g_sPS2ErrorCnt := 0, g_InControlState.fHexOn := true } := by
    simp [afterStart, startButton, hstart, hoff]
  have e2 : afterStart { s with g_InControlState.fHexOn := true } (withoutStart r)
      = { s with g_sPS2ErrorCnt := 0, g_InControlState.fHexOn := true } := by
    simp [afterStart, startButton, hst2]
  refine ⟨e1, ?_, ?_⟩
  · simp [ControlInput_valid, hok, validCycle, e1]
  · rw [ControlInput_valid cfg s r hok, ControlInput_valid cfg _ _ hok2]
    simp only [validCycle, e1, e2, hexOn_withoutStart]

/-- Witness for C3 (amended): the hexapod at rest, Start pressed with the
left stick pushed. -/
theorem power_toggle_while_off_witness :
    analogModeOK startPacket = true ∧ startPacket.ButtonPressed PSB.START = true
    ∧ restState.g_InControlState.fHexOn = false
    ∧ ControlInput sampleConfig restState startPacket
        = ControlInput sampleConfig { restState with g_InControlState.fHexOn := true }
            (withoutStart startPacket) :=
  ⟨by decide, by decide, by decide,
    (power_toggle_while_off sampleConfig restState startPacket
      (by decide) (by decide) (by decide)).2.2⟩

/-! ## C4: cycles whose packet fails the validity test -/

/-- C4, counterexample. The hexapod is walking and the error count already
stands at 5; one more packet that fails the validity test switches the
hexapod off and clears `TravelLength`, so the control state is not left
unchanged. -/
theorem invalid_cycle_counterexample :
    analogModeOK lostPacket = false
    ∧ lastChanceState.g_InControlState.fHexOn = true
    ∧ lastChanceState.g_InControlState.TravelLength = ⟨-50, 10, 20⟩
    ∧ lastChanceState.g_sPS2ErrorCnt = 5
    ∧ (ControlInput sampleConfig lastChanceState lostPacket).g_InControlState.fHexOn = false
    ∧ (ControlInput sampleConfig lastChanceState lostPacket).g_InControlState.TravelLength
        = ⟨0, 0, 0⟩
    ∧ (ControlInput sampleConfig lastChanceState lostPacket).g_InControlState
        ≠ lastChanceState.g_InControlState := by
  decide

/-- C4, amended. For every state whose error count is at most 5 and every
packet that fails the validity test: if the error count is 5 and the hexapod
is on, the cycle is `PS2TurnRobotOff` (the watchdog shutdown); in every
other case the cycle leaves the whole state unchanged except that the error
count becomes `min (g_sPS2ErrorCnt + 1) 5`. -/
theorem invalid_cycle_skipped (cfg : Config) (s : State) (r : Inputs)
    (hbad : analogModeOK r = false) (hle : s.g_sPS2ErrorCnt ≤ 5) :
    ControlInput cfg s r
      = if s.g_sPS2ErrorCnt = 5 ∧ s.g_InControlState.fHexOn = true then PS2TurnRobotOff s
        else { s with g_sPS2ErrorCnt := min (s.g_sPS2ErrorCnt + 1) 5 } := by
  rw [ControlInput_lost cfg s r hbad]
  unfold lostCycle MAXPS2ERRORCNT
  by_cases h5 : s.g_sPS2ErrorCnt < 5
  · have hne : s.g_sPS2ErrorCnt ≠ 5 := by omega
    have hmin : min (s.g_sPS2ErrorCnt + 1) 5 = s.g_sPS2ErrorCnt + 1 := by omega
    simp [h5, hne, hmin]
  · have heq : s.g_sPS2ErrorCnt = 5 := by omega
    by_cases hon : s.g_InControlState.fHexOn = true
    · simp [heq, hon]
    · have hs : ({ s with g_sPS2ErrorCnt := 5 } : State) = s := by
        cases s; simp_all
      simp [heq, hon, hs]

/-- Witness for C4 (amended): a first lost packet while walking only counts. -/
theorem invalid_cycle_skipped_witness :
    analogModeOK lostPacket = false ∧ walkingState.g_sPS2ErrorCnt ≤ 5
    ∧ ControlInput sampleConfig walkingState lostPacket
        = { walkingState with g_sPS2ErrorCnt := 1 } :=
  ⟨by decide, by decide,
    (invalid_cycle_skipped sampleConfig walkingState lostPacket (by decide) (by decide)).trans
      (by decide)⟩

/-! ## C5: the body height -/

/-- A valid cycle ends by writing `BodyPos.y`, a lost cycle either changes
nothing that the equation reads or clears all three variables. -/
theorem bodyPosY_step (cfg : Config) (s : State) (r : Inputs)
    (h : analogModeOK r = true
      ∨ s.g_InControlState.BodyPos.y = max (s.g_BodyYOffset + s.g_BodyYShift) 0) :
    (ControlInput cfg s r).g_InControlState.BodyPos.y
      = max ((ControlInput cfg s r).g_BodyYOffset + (ControlInput cfg s r).g_BodyYShift) 0 := by
  by_cases hok : analogModeOK r = true
  · rw [ControlInput_valid cfg s r hok]
    simp [validCycle, bodyPosY, arduinoMax_eq]
  · have hbad : analogModeOK r = false := by simpa using hok
    have hinv := h.resolve_left hok
    rw [ControlInput_lost cfg s r hbad]
    unfold lostCycle
    split_ifs
    · exact hinv
    · simp [PS2TurnRobotOff]
    · exact hinv

/-- C5. `BodyPos.y = max (g_BodyYOffset + g_BodyYShift) 0` holds after a cycle
whenever the cycle is valid (hexapod on or off, with or without a Start edge)
or the equation held before it (so a lost cycle, the watchdog shutdown
included, preserves it); and from then on it holds after every further
sequence of cycles. -/
theorem body_height_invariant (cfg : Config) (s : State) (r : Inputs) (rs : List Inputs)
    (h : analogModeOK r = true
      ∨ s.g_InControlState.BodyPos.y = max (s.g_BodyYOffset + s.g_BodyYShift) 0) :
    (ControlInput cfg s r).g_InControlState.BodyPos.y
        = max ((ControlInput cfg s r).g_BodyYOffset + (ControlInput cfg s r).g_BodyYShift) 0
    ∧ (runCycles cfg s (r :: rs)).g_InControlState.BodyPos.y
        = max ((runCycles cfg s (r :: rs)).g_BodyYOffset
            + (runCycles cfg s (r :: rs)).g_BodyYShift) 0 := by
  refine ⟨bodyPosY_step cfg s r h, ?_⟩
  induction rs generalizing s r with
  | nil => exact bodyPosY_step cfg s r h
  | cons r2 rs ih =>
    rw [runCycles_cons]
    exact ih (ControlInput cfg s r) r2 (Or.inr (bodyPosY_step cfg s r h))

/-- Witness for C5: a valid idle cycle followed by two lost ones, starting
from a state in which the equation does not hold. -/
theorem body_height_invariant_witness :
    analogModeOK idlePacket = true
    ∧ (Init restState).g_InControlState.BodyPos.y
        ≠ max ((Init restState).g_BodyYOffset + (Init restState).g_BodyYShift) 0
    ∧ (runCycles sampleConfig (Init restState) [idlePacket, lostPacket, lostPacket]
        ).g_InControlState.BodyPos.y
        = max ((runCycles sampleConfig (Init restState) [idlePacket, lostPacket, lostPacket]
            ).g_BodyYOffset
          + (runCycles sampleConfig (Init restState) [idlePacket, lostPacket, lostPacket]
            ).g_BodyYShift) 0 :=
  ⟨by decide, by decide,
    (body_height_invariant sampleConfig (Init restState) idlePacket [lostPacket, lostPacket]
      (Or.inl (by decide))).2⟩

/-! ## C6: the speed control -/

theorem padRight_SpeedControl (s : State) (r : Inputs) :
    (padRight s r).g_InControlState.SpeedControl
      = if r.Button PSB.PAD_RIGHT = true ∧ 0 < s.g_InControlState.SpeedControl
        then s.g_InControlState.SpeedControl - 50 else s.g_InControlState.SpeedControl := by
  unfold padRight
  split_ifs <;> first | rfl | tauto

theorem padLeft_SpeedControl (s : State) (r : Inputs) :
    (padLeft s r).g_InControlState.SpeedControl
      = if r.Button PSB.PAD_LEFT = true ∧ s.g_InControlState.SpeedControl < 2000
        then s.g_InControlState.SpeedControl + 50 else s.g_InControlState.SpeedControl := by
  unfold padLeft
  split_ifs <;> first | rfl | tauto

/-- One cycle keeps `SpeedControl` a multiple of 50 between 0 and 2000. -/
theorem speed_step (cfg : Config) (s : State) (r : Inputs)
    (h : 50 ∣ s.g_InControlState.SpeedControl
      ∧ 0 ≤ s.g_InControlState.SpeedControl ∧ s.g_InControlState.SpeedControl ≤ 2000) :
    50 ∣ (ControlInput cfg s r).g_InControlState.SpeedControl
      ∧ 0 ≤ (ControlInput cfg s r).g_InControlState.SpeedControl
      ∧ (ControlInput cfg s r).g_InControlState.SpeedControl ≤ 2000 := by
  obtain ⟨hdvd, h0, h1⟩ := h
  unfold ControlInput
  split_ifs
  · simp only [validCycle, bodyPosY_SpeedControl]
    split_ifs
    · simp only [hexOn, timeDelay_SpeedControl, gpPlayerFunctions_SpeedControl,
        singleLegFunctions_SpeedControl, rotateFunctions_SpeedControl,
        translateFunctions_SpeedControl, walkFunctions_SpeedControl, commonFunctions,
        padLeft_SpeedControl, padRight_SpeedControl, padDown_SpeedControl, padUp_SpeedControl,
        standSit_SpeedControl, balanceButton_SpeedControl, switchModes_SpeedControl,
        afterStart_SpeedControl]
      split_ifs <;> omega
    · simp only [afterStart_SpeedControl]
      exact ⟨hdvd, h0, h1⟩
  · unfold lostCycle
    split_ifs
    · exact ⟨hdvd, h0, h1⟩
    · simp only [PS2TurnRobotOff_SpeedControl]
      exact ⟨hdvd, h0, h1⟩
    · exact ⟨hdvd, h0, h1⟩

theorem speed_run (cfg : Config) (reads : List Inputs) (s : State)
    (h : 50 ∣ s.g_InControlState.SpeedControl
      ∧ 0 ≤ s.g_InControlState.SpeedControl ∧ s.g_InControlState.SpeedControl ≤ 2000) :
    50 ∣ (runCycles cfg s reads).g_InControlState.SpeedControl
      ∧ 0 ≤ (runCycles cfg s reads).g_InControlState.SpeedControl
      ∧ (runCycles cfg s reads).g_InControlState.SpeedControl ≤ 2000 := by
  induction reads generalizing s with
  | nil => exact h
  | cons r rs ih =>
    rw [runCycles_cons]
    exact ih (ControlInput cfg s r) (speed_step cfg s r h)

/-- C6. Starting from the value `Init` sets (`SpeedControl = 100`), or from
any multiple of 50 between 0 and 2000, `SpeedControl` lies between 0 and 2000
after every finite sequence of cycles, whatever the packets carry (D-pad left,
D-pad right, both, or anything else). -/
theorem speed_stays_in_range (cfg : Config) (s0 s : State) (reads : List Inputs)
    (h : s.g_InControlState.SpeedControl = (Init s0).g_InControlState.SpeedControl
      ∨ (50 ∣ s.g_InControlState.SpeedControl
        ∧ 0 ≤ s.g_InControlState.SpeedControl ∧ s.g_InControlState.SpeedControl ≤ 2000)) :
    0 ≤ (runCycles cfg s reads).g_InControlState.SpeedControl
      ∧ (runCycles cfg s reads).g_InControlState.SpeedControl ≤ 2000 := by
  have hs : 50 ∣ s.g_InControlState.SpeedControl
      ∧ 0 ≤ s.g_InControlState.SpeedControl ∧ s.g_InControlState.SpeedControl ≤ 2000 := by
    rcases h with h | h
    · have h100 : s.g_InControlState.SpeedControl = 100 := h
      rw [h100]
      decide
    · exact h
  exact (speed_run cfg reads s hs).2

/-- Witness for C6: after `Init` the hexapod is switched on and D-pad left
and D-pad right are then held together for two cycles. -/
theorem speed_stays_in_range_witness :
    (Init restState).g_InControlState.SpeedControl = 100
    ∧ 0 ≤ (runCycles sampleConfig (Init restState)
        [startPacket, bothPadsPacket, bothPadsPacket]).g_InControlState.SpeedControl
    ∧ (runCycles sampleConfig (Init restState)
        [startPacket, bothPadsPacket, bothPadsPacket]).g_InControlState.SpeedControl ≤ 2000 :=
  ⟨by decide,
    speed_stays_in_range sampleConfig restState (Init restState)
      [startPacket, bothPadsPacket, bothPadsPacket] (Or.inl rfl)⟩

/-! ## The mode switch inside a cycle -/

/-- When the hexapod is on at line 180, the Start handling has changed
nothing but `fHexOn`. -/
theorem afterStart_of_on (s : State) (r : Inputs)
    (hon : (afterStart s r).g_InControlState.fHexOn = true) :
    afterStart s r = { s with g_sPS2ErrorCnt := 0, g_InControlState.fHexOn := true } := by
  unfold afterStart startButton at hon ⊢
  split_ifs at hon ⊢ with h1 h2
  · simp [PS2TurnRobotOff] at hon
  · rfl
  · obtain ⟨g, a, b, c, d, e, f, i, j⟩ := s
    obtain ⟨g1, g2, g3, g4, g5, g6, g7, g8, g9, g10, g11, g12, g13, g14, g15⟩ := g
    simp only at hon
    subst hon
    rfl

/-- The mode at the end of a valid cycle with the hexapod on is the mode
left by the block `[SWITCH MODES]`. -/
theorem ControlInput_ControlMode (cfg : Config) (s : State) (r : Inputs)
    (hok : analogModeOK r = true) (hon : (afterStart s r).g_InControlState.fHexOn = true) :
    (ControlInput cfg s r).ControlMode = (switchModes cfg (afterStart s r) r).ControlMode := by
  rw [ControlInput_valid cfg s r hok]
  simp [validCycle, hon, hexOn]

/-- Without a Select edge the selected leg at the end of a valid cycle with
the hexapod on is the one left by the block `[SWITCH MODES]`. -/
theorem ControlInput_SelectedLeg (cfg : Config) (s : State) (r : Inputs)
    (hok : analogModeOK r = true) (hon : (afterStart s r).g_InControlState.fHexOn = true)
    (hsel : r.ButtonPressed PSB.SELECT = false) :
    (ControlInput cfg s r).g_InControlState.SelectedLeg
      = (switchModes cfg (afterStart s r) r).g_InControlState.SelectedLeg := by
  rw [ControlInput_valid cfg s r hok]
  simp only [validCycle, hon, if_true, hexOn, bodyPosY_SelectedLeg, timeDelay_SelectedLeg,
    gpPlayerFunctions_SelectedLeg]
  unfold singleLegFunctions
  split_ifs
  · simp [legButton, hsel]
  · simp

theorem ControlInput_fHexOn (cfg : Config) (s : State) (r : Inputs)
    (hok : analogModeOK r = true) :
    (ControlInput cfg s r).g_InControlState.fHexOn = (afterStart s r).g_InControlState.fHexOn := by
  rw [ControlInput_valid cfg s r hok]
  simp only [validCycle]
  split_ifs <;> simp

theorem noMovement_iff (s : State) :
    noMovement s = true ↔
      |s.g_InControlState.TravelLength.x| < 4 ∧ |s.g_InControlState.TravelLength.z| < 4
        ∧ |2 * s.g_InControlState.TravelLength.y| < 4 := by
  simp [noMovement, arduinoAbs_eq, cTravelDeadZone, mul_comm, and_assoc]

/-- The selected leg left by the single leg block. -/
theorem singleLegFunctions_SelectedLeg_eq (cfg : Config) (s : State) (r : Inputs) :
    (singleLegFunctions cfg s r).g_InControlState.SelectedLeg
      = if s.ControlMode = SINGLELEGMODE ∧ r.ButtonPressed PSB.SELECT = true then
          (if s.g_InControlState.SelectedLeg < 6 then s.g_InControlState.SelectedLeg + 1 else 0)
        else s.g_InControlState.SelectedLeg := by
  unfold singleLegFunctions
  by_cases hm : s.ControlMode = SINGLELEGMODE
  · by_cases hsel : r.ButtonPressed PSB.SELECT = true
    · simp only [hm, beq_self_eq_true, if_true, holdButton_SelectedLeg,
        mandibleOrLeg_SelectedLeg, hsel, and_self]
      unfold legButton
      rw [if_pos hsel]
      split_ifs <;> rfl
    · simp [hm, hsel, legButton]
  · simp [hm]

/-- The selected leg at the end of the steps that run while the hexapod is
on: the one left by the block `[SWITCH MODES]`, moved on by Select when that
block leaves single leg mode. -/
theorem hexOn_SelectedLeg_eq (cfg : Config) (s : State) (r : Inputs) :
    (hexOn cfg s r).g_InControlState.SelectedLeg
      = if (switchModes cfg s r).ControlMode = SINGLELEGMODE
            ∧ r.ButtonPressed PSB.SELECT = true then
          (if (switchModes cfg s r).g_InControlState.SelectedLeg < 6
            then (switchModes cfg s r).g_InControlState.SelectedLeg + 1 else 0)
        else (switchModes cfg s r).g_InControlState.SelectedLeg := by
  simp [hexOn, singleLegFunctions_SelectedLeg_eq]

theorem hexOn_ControlMode_eq (cfg : Config) (s : State) (r : Inputs) :
    (hexOn cfg s r).ControlMode = (switchModes cfg s r).ControlMode := by
  simp [hexOn]

/-- The selected leg at the end of a valid cycle with the hexapod on. -/
theorem ControlInput_SelectedLeg_eq (cfg : Config) (s : State) (r : Inputs)
    (hok : analogModeOK r = true) (hon : (afterStart s r).g_InControlState.fHexOn = true) :
    (ControlInput cfg s r).g_InControlState.SelectedLeg
      = if (switchModes cfg (afterStart s r) r).ControlMode = SINGLELEGMODE
            ∧ r.ButtonPressed PSB.SELECT = true then
          (if (switchModes cfg (afterStart s r) r).g_InControlState.SelectedLeg < 6
            then (switchModes cfg (afterStart s r) r).g_InControlState.SelectedLeg + 1 else 0)
        else (switchModes cfg (afterStart s r) r).g_InControlState.SelectedLeg := by
  rw [ControlInput_valid cfg s r hok]
  simp only [validCycle, hon, if_true, bodyPosY_SelectedLeg, hexOn_SelectedLeg_eq]

/-! ## C7: the Translate toggle -/

/-- C7. In a valid cycle with the hexapod on whose only mode-button edge is L1,
the mode left by the block `[SWITCH MODES]` is Translate if the mode was
neither Translate nor SingleLeg, Walk if the mode was Translate and
`SelectedLeg = 255`, SingleLeg if the mode was Translate and
`SelectedLeg ≠ 255`, and still SingleLeg if the mode was SingleLeg; the block
leaves `SelectedLeg` as it was, and the mode it leaves is the mode at the end
of the cycle. -/
theorem translate_toggle (cfg : Config) (s : State) (r : Inputs)
    (hok : analogModeOK r = true) (hon : (afterStart s r).g_InControlState.fHexOn = true)
    (hL1 : r.ButtonPressed PSB.L1 = true) (hL2 : r.ButtonPressed PSB.L2 = false)
    (hO : r.ButtonPressed PSB.CIRCLE = false) (hX : r.ButtonPressed PSB.CROSS = false) :
    (s.ControlMode ≠ TRANSLATEMODE → s.ControlMode ≠ SINGLELEGMODE →
        (switchModes cfg (afterStart s r) r).ControlMode = TRANSLATEMODE)
    ∧ (s.ControlMode = TRANSLATEMODE → s.g_InControlState.SelectedLeg = 255 →
        (switchModes cfg (afterStart s r) r).ControlMode = WALKMODE)
    ∧ (s.ControlMode = TRANSLATEMODE → s.g_InControlState.SelectedLeg ≠ 255 →
        (switchModes cfg (afterStart s r) r).ControlMode = SINGLELEGMODE)
    ∧ (s.ControlMode = SINGLELEGMODE →
        (switchModes cfg (afterStart s r) r).ControlMode = SINGLELEGMODE)
    ∧ (switchModes cfg (afterStart s r) r).g_InControlState.SelectedLeg
        = s.g_InControlState.SelectedLeg
    ∧ (ControlInput cfg s r).ControlMode
        = (switchModes cfg (afterStart s r) r).ControlMode := by
  refine ⟨?_, ?_, ?_, ?_, ?_, ControlInput_ControlMode cfg s r hok hon⟩
  · intro h1 h2
    simp [afterStart_of_on s r hon, switchModes, switchGPPlayer, switchSingleLeg,
      switchRotate, switchTranslate, hL1, hL2, hO, hX, h1, h2]
  · intro h1 h2
    simp [afterStart_of_on s r hon, switchModes, switchGPPlayer, switchSingleLeg,
      switchRotate, switchTranslate, hL1, hL2, hO, hX, h1, h2, TRANSLATEMODE, SINGLELEGMODE]
  · intro h1 h2
    simp [afterStart_of_on s r hon, switchModes, switchGPPlayer, switchSingleLeg,
      switchRotate, switchTranslate, hL1, hL2, hO, hX, h1, h2, TRANSLATEMODE, SINGLELEGMODE]
  · intro h1
    simp [afterStart_of_on s r hon, switchModes, switchGPPlayer, switchSingleLeg,
      switchRotate, switchTranslate, hL1, hL2, hO, hX, h1]
  · simp [afterStart_of_on s r hon, switchModes, switchGPPlayer, switchSingleLeg,
      switchRotate, switchTranslate, hL1, hL2, hO, hX]
    split_ifs <;> rfl

/-- Witness for C7: leaving Translate mode with leg 3 still selected returns
to SingleLeg mode. -/
theorem translate_toggle_witness :
    analogModeOK l1Packet = true
    ∧ (afterStart shiftedLegState l1Packet).g_InControlState.fHexOn = true
    ∧ l1Packet.ButtonPressed PSB.L1 = true ∧ l1Packet.ButtonPressed PSB.L2 = false
    ∧ l1Packet.ButtonPressed PSB.CIRCLE = false ∧ l1Packet.ButtonPressed PSB.CROSS = false
    ∧ shiftedLegState.ControlMode = TRANSLATEMODE
    ∧ shiftedLegState.g_InControlState.SelectedLeg ≠ 255
    ∧ (switchModes sampleConfig (afterStart shiftedLegState l1Packet) l1Packet).ControlMode
        = SINGLELEGMODE :=
  ⟨by decide, by decide, by decide, by decide, by decide, by decide, by decide, by decide,
    (translate_toggle sampleConfig shiftedLegState l1Packet
      (by decide) (by decide) (by decide) (by decide) (by decide) (by decide)).2.2.1
      (by decide) (by decide)⟩

/-! ## C8: the Rotate toggle, there and back -/

/-- The block `[SWITCH MODES]` when L2 is the only mode-button edge. -/
theorem switchModes_L2 (cfg : Config) (s : State) (r : Inputs)
    (hL1 : r.ButtonPressed PSB.L1 = false)
    (hO : r.ButtonPressed PSB.CIRCLE = false) (hX : r.ButtonPressed PSB.CROSS = false) :
    switchModes cfg s r = switchRotate s r := by
  simp [switchModes, switchGPPlayer, switchSingleLeg, switchTranslate, hL1, hO, hX]

/-- One valid cycle with the hexapod on, an L2 edge and no Start, L1, Circle,
Cross or Select edge: the hexapod stays on, the selected leg stays, and the
mode toggles around Rotate. -/
theorem rotate_cycle (cfg : Config) (s : State) (r : Inputs)
    (hok : analogModeOK r = true) (hon : s.g_InControlState.fHexOn = true)
    (hS : r.ButtonPressed PSB.START = false)
    (hL1 : r.ButtonPressed PSB.L1 = false) (hL2 : r.ButtonPressed PSB.L2 = true)
    (hO : r.ButtonPressed PSB.CIRCLE = false) (hX : r.ButtonPressed PSB.CROSS = false)
    (hsel : r.ButtonPressed PSB.SELECT = false) :
    (ControlInput cfg s r).g_InControlState.fHexOn = true
    ∧ (ControlInput cfg s r).g_InControlState.SelectedLeg = s.g_InControlState.SelectedLeg
    ∧ (ControlInput cfg s r).ControlMode
        = if s.ControlMode ≠ ROTATEMODE then ROTATEMODE
          else if s.g_InControlState.SelectedLeg = 255 then WALKMODE else SINGLELEGMODE := by
  have hon1 : (afterStart s r).g_InControlState.fHexOn = true := by
    simp [afterStart, startButton, hS, hon]
  refine ⟨?_, ?_, ?_⟩
  · rw [ControlInput_fHexOn cfg s r hok, hon1]
  · rw [ControlInput_SelectedLeg cfg s r hok hon1 hsel, switchModes_L2 cfg _ r hL1 hO hX,
      afterStart_of_on s r hon1]
    simp
  · rw [ControlInput_ControlMode cfg s r hok hon1, switchModes_L2 cfg _ r hL1 hO hX,
      afterStart_of_on s r hon1]
    simp only [switchRotate, hL2, if_true]
    split_ifs <;> simp_all

/-- C8. With the hexapod on, two successive valid cycles each carrying an L2
edge and no Start, L1, Circle, Cross or Select edge: starting in SingleLeg
mode with a leg `0..6` selected, or in Walk mode with `SelectedLeg = 255`,
the mode is Rotate after the first cycle, and after the second the mode and
the selected leg are what they were at the start. -/
theorem rotate_toggle_round_trip (cfg : Config) (s : State) (r1 r2 : Inputs)
    (hok1 : analogModeOK r1 = true) (hok2 : analogModeOK r2 = true)
    (hon : s.g_InControlState.fHexOn = true)
    (hS1 : r1.ButtonPressed PSB.START = false) (hS2 : r2.ButtonPressed PSB.START = false)
    (hL11 : r1.ButtonPressed PSB.L1 = false) (hL12 : r2.ButtonPressed PSB.L1 = false)
    (hL21 : r1.ButtonPressed PSB.L2 = true) (hL22 : r2.ButtonPressed PSB.L2 = true)
    (hO1 : r1.ButtonPressed PSB.CIRCLE = false) (hO2 : r2.ButtonPressed PSB.CIRCLE = false)
    (hX1 : r1.ButtonPressed PSB.CROSS = false) (hX2 : r2.ButtonPressed PSB.CROSS = false)
    (hsel1 : r1.ButtonPressed PSB.SELECT = false) (hsel2 : r2.ButtonPressed PSB.SELECT = false)
    (hstart : (s.ControlMode = SINGLELEGMODE ∧ s.g_InControlState.SelectedLeg ≤ 6)
      ∨ (s.ControlMode = WALKMODE ∧ s.g_InControlState.SelectedLeg = 255)) :
    (ControlInput cfg s r1).ControlMode = ROTATEMODE
    ∧ (runCycles cfg s [r1, r2]).ControlMode = s.ControlMode
    ∧ (runCycles cfg s [r1, r2]).g_InControlState.SelectedLeg
        = s.g_InControlState.SelectedLeg := by
  obtain ⟨on1, leg1, mode1⟩ := rotate_cycle cfg s r1 hok1 hon hS1 hL11 hL21 hO1 hX1 hsel1
  obtain ⟨_, leg2, mode2⟩ :=
    rotate_cycle cfg (ControlInput cfg s r1) r2 hok2 on1 hS2 hL12 hL22 hO2 hX2 hsel2
  have hrot : (ControlInput cfg s r1).ControlMode = ROTATEMODE := by
    rw [mode1]
    rcases hstart with ⟨hm, _⟩ | ⟨hm, _⟩ <;> simp [hm, SINGLELEGMODE, WALKMODE, ROTATEMODE]
  refine ⟨hrot, ?_, ?_⟩
  · show (ControlInput cfg (ControlInput cfg s r1) r2).ControlMode = s.ControlMode
    rw [mode2, hrot, leg1]
    rcases hstart with ⟨hm, hk⟩ | ⟨hm, hk⟩
    · have hne : s.g_InControlState.SelectedLeg ≠ 255 := by omega
      simp [hm, hne]
    · simp [hm, hk]
  · show (ControlInput cfg (ControlInput cfg s r1) r2).g_InControlState.SelectedLeg
      = s.g_InControlState.SelectedLeg
    rw [leg2, leg1]

/-- Witness for C8: L2 twice in SingleLeg mode with leg 3 selected. -/
theorem rotate_toggle_round_trip_witness :
    singleLegState.g_InControlState.fHexOn = true
    ∧ singleLegState.ControlMode = SINGLELEGMODE
    ∧ singleLegState.g_InControlState.SelectedLeg = 3
    ∧ (ControlInput sampleConfig singleLegState l2Packet).ControlMode = ROTATEMODE
    ∧ (runCycles sampleConfig singleLegState [l2Packet, l2Packet]).ControlMode = SINGLELEGMODE
    ∧ (runCycles sampleConfig singleLegState [l2Packet, l2Packet]).g_InControlState.SelectedLeg
        = 3 :=
  ⟨by decide, by decide, by decide,
    rotate_toggle_round_trip sampleConfig singleLegState l2Packet l2Packet
      (by decide) (by decide) (by decide) (by decide) (by decide) (by decide) (by decide)
      (by decide) (by decide) (by decide) (by decide) (by decide) (by decide) (by decide)
      (by decide) (Or.inl ⟨by decide, by decide⟩)⟩

/-! ## C9: the guard of the SingleLeg toggle -/

/-- The block `[SWITCH MODES]` when Circle is the only mode-button edge. -/
theorem switchModes_circle (cfg : Config) (s : State) (r : Inputs)
    (hL1 : r.ButtonPressed PSB.L1 = false) (hL2 : r.ButtonPressed PSB.L2 = false)
    (hX : r.ButtonPressed PSB.CROSS = false) :
    switchModes cfg s r = switchSingleLeg s r := by
  simp [switchModes, switchGPPlayer, switchRotate, switchTranslate, hL1, hL2, hX]

/-- C9. In a valid cycle with the hexapod on, a Circle edge and no L1, L2 or
Cross edge, if the travel length left by the previous cycle fails
`|x| < 4 ∧ |z| < 4 ∧ |2 * y| < 4`, the block `[SWITCH MODES]` leaves the mode
and the selected leg as they were before the cycle (and that mode is the mode
at the end of the cycle). -/
theorem single_leg_guard (cfg : Config) (s : State) (r : Inputs)
    (hok : analogModeOK r = true) (hon : (afterStart s r).g_InControlState.fHexOn = true)
    (hO : r.ButtonPressed PSB.CIRCLE = true)
    (hL1 : r.ButtonPressed PSB.L1 = false) (hL2 : r.ButtonPressed PSB.L2 = false)
    (hX : r.ButtonPressed PSB.CROSS = false)
    (hguard : ¬ (|s.g_InControlState.TravelLength.x| < 4
      ∧ |s.g_InControlState.TravelLength.z| < 4
      ∧ |2 * s.g_InControlState.TravelLength.y| < 4)) :
    (switchModes cfg (afterStart s r) r).ControlMode = s.ControlMode
    ∧ (switchModes cfg (afterStart s r) r).g_InControlState.SelectedLeg
        = s.g_InControlState.SelectedLeg
    ∧ (ControlInput cfg s r).ControlMode = s.ControlMode := by
  have hmove : noMovement { s with g_sPS2ErrorCnt := 0, g_InControlState.fHexOn := true }
      = false := by
    rw [← Bool.not_eq_true, noMovement_iff]
    exact hguard
  have hsw : switchModes cfg (afterStart s r) r
      = { s with g_sPS2ErrorCnt := 0, g_InControlState.fHexOn := true } := by
    rw [afterStart_of_on s r hon, switchModes_circle cfg _ r hL1 hL2 hX]
    unfold switchSingleLeg
    rw [if_pos hO]
    simp [hmove]
  refine ⟨?_, ?_, ?_⟩
  · rw [hsw]
  · rw [hsw]
  · rw [ControlInput_ControlMode cfg s r hok hon, hsw]

/-- Witness for C9: Circle pressed in mid-stride, travel length `(-50, 10, 20)`. -/
theorem single_leg_guard_witness :
    analogModeOK circlePacket = true
    ∧ (afterStart walkingState circlePacket).g_InControlState.fHexOn = true
    ∧ circlePacket.ButtonPressed PSB.CIRCLE = true
    ∧ walkingState.g_InControlState.TravelLength = ⟨-50, 10, 20⟩
    ∧ walkingState.ControlMode = WALKMODE
    ∧ (ControlInput sampleConfig walkingState circlePacket).ControlMode = WALKMODE :=
  ⟨by decide, by decide, by decide, by decide, by decide,
    (single_leg_guard sampleConfig walkingState circlePacket
      (by decide) (by decide) (by decide) (by decide) (by decide) (by decide)
      (by decide)).2.2⟩

/-! ## C10: entering and leaving SingleLeg mode -/

/-- C10, counterexample. The hexapod stands still in Walk mode with no leg
selected, and a valid packet carries a Circle edge together with a Select
edge.  Line 226 selects leg 6 and, the mode now being SingleLeg, lines 371-377
of the same cycle move the selection on: the cycle ends with `SelectedLeg = 0`,
not 6.  Entered from Translate mode with leg 3 selected, the cycle ends with
leg 4, not 3. -/
theorem single_leg_entry_exit_counterexample :
    analogModeOK circleSelectPacket = true
    ∧ circleSelectPacket.ButtonPressed PSB.CIRCLE = true
    ∧ circleSelectPacket.ButtonPressed PSB.L1 = false
    ∧ circleSelectPacket.ButtonPressed PSB.L2 = false
    ∧ circleSelectPacket.ButtonPressed PSB.CROSS = false
    ∧ standingState.g_InControlState.fHexOn = true
    ∧ standingState.ControlMode = WALKMODE
    ∧ standingState.g_InControlState.SelectedLeg = 255
    ∧ standingState.g_InControlState.TravelLength = ⟨0, 0, 0⟩
    ∧ (ControlInput sampleConfig standingState circleSelectPacket).ControlMode = SINGLELEGMODE
    ∧ (ControlInput sampleConfig standingState circleSelectPacket
        ).g_InControlState.SelectedLeg = 0
    ∧ shiftedLegState.ControlMode = TRANSLATEMODE
    ∧ shiftedLegState.g_InControlState.SelectedLeg = 3
    ∧ (ControlInput sampleConfig shiftedLegState circleSelectPacket).ControlMode
        = SINGLELEGMODE
    ∧ (ControlInput sampleConfig shiftedLegState circleSelectPacket
        ).g_InControlState.SelectedLeg = 4 := by
  decide

/-- C10, amended. In a valid cycle with the hexapod on, a Circle edge, no L1,
L2 or Cross edge and the travel length within
`|x| < 4 ∧ |z| < 4 ∧ |2 * y| < 4`: if the mode was not SingleLeg, the block
`[SWITCH MODES]` makes it SingleLeg and sets `SelectedLeg` to 6 when it was 255,
keeping it otherwise; the cycle ends in SingleLeg mode, with that leg when the
packet carries no Select edge and with the next leg (0 after 6) when it does.
If the mode was SingleLeg, the block makes it Walk and sets `SelectedLeg` to
255, and the cycle ends so, with or without a Select edge. -/
theorem single_leg_entry_exit (cfg : Config) (s : State) (r : Inputs)
    (hok : analogModeOK r = true) (hon : (afterStart s r).g_InControlState.fHexOn = true)
    (hO : r.ButtonPressed PSB.CIRCLE = true)
    (hL1 : r.ButtonPressed PSB.L1 = false) (hL2 : r.ButtonPressed PSB.L2 = false)
    (hX : r.ButtonPressed PSB.CROSS = false)
    (hguard : |s.g_InControlState.TravelLength.x| < 4
      ∧ |s.g_InControlState.TravelLength.z| < 4
      ∧ |2 * s.g_InControlState.TravelLength.y| < 4) :
    (s.ControlMode ≠ SINGLELEGMODE →
        (switchModes cfg (afterStart s r) r).ControlMode = SINGLELEGMODE
        ∧ (switchModes cfg (afterStart s r) r).g_InControlState.SelectedLeg
            = (if s.g_InControlState.SelectedLeg = 255 then 6
               else s.g_InControlState.SelectedLeg)
        ∧ (ControlInput cfg s r).ControlMode = SINGLELEGMODE
        ∧ (r.ButtonPressed PSB.SELECT = false →
            (ControlInput cfg s r).g_InControlState.SelectedLeg
              = if s.g_InControlState.SelectedLeg = 255 then 6
                else s.g_InControlState.SelectedLeg)
        ∧ (r.ButtonPressed PSB.SELECT = true →
            (ControlInput cfg s r).g_InControlState.SelectedLeg
              = if (if s.g_InControlState.SelectedLeg = 255 then 6
                    else s.g_InControlState.SelectedLeg) < 6
                then (if s.g_InControlState.SelectedLeg = 255 then 6
                      else s.g_InControlState.SelectedLeg) + 1
                else 0))
    ∧ (s.ControlMode = SINGLELEGMODE →
        (switchModes cfg (afterStart s r) r).ControlMode = WALKMODE
        ∧ (switchModes cfg (afterStart s r) r).g_InControlState.SelectedLeg = 255
        ∧ (ControlInput cfg s r).ControlMode = WALKMODE
        ∧ (ControlInput cfg s r).g_InControlState.SelectedLeg = 255) := by
  have hmove : noMovement { s with g_sPS2ErrorCnt := 0, g_InControlState.fHexOn := true }
      = true := by
    rw [noMovement_iff]
    exact hguard
  have hmode := ControlInput_ControlMode cfg s r hok hon
  have hleg := ControlInput_SelectedLeg_eq cfg s r hok hon
  constructor
  · intro hm
    have hsw : (switchModes cfg (afterStart s r) r).ControlMode = SINGLELEGMODE
        ∧ (switchModes cfg (afterStart s r) r).g_InControlState.SelectedLeg
            = (if s.g_InControlState.SelectedLeg = 255 then 6
               else s.g_InControlState.SelectedLeg) := by
      rw [afterStart_of_on s r hon, switchModes_circle cfg _ r hL1 hL2 hX]
      unfold switchSingleLeg
      rw [if_pos hO, if_pos hmove]
      split_ifs <;> simp_all
    refine ⟨hsw.1, hsw.2, ?_, ?_, ?_⟩
    · rw [hmode, hsw.1]
    · intro hsel
      rw [hleg, hsw.2]
      simp [hsel]
    · intro hsel
      rw [hleg, hsw.1, hsw.2]
      simp [hsel]
  · intro hm
    have hsw : (switchModes cfg (afterStart s r) r).ControlMode = WALKMODE
        ∧ (switchModes cfg (afterStart s r) r).g_InControlState.SelectedLeg = 255 := by
      rw [afterStart_of_on s r hon, switchModes_circle cfg _ r hL1 hL2 hX]
      unfold switchSingleLeg
      rw [if_pos hO, if_pos hmove]
      split_ifs <;> simp_all
    refine ⟨hsw.1, hsw.2, ?_, ?_⟩
    · rw [hmode, hsw.1]
    · rw [hleg, hsw.1, hsw.2]
      simp [WALKMODE, SINGLELEGMODE]

/-- Witness for C10 (amended): Circle pressed while standing still in Walk
mode; the cycle ends in SingleLeg mode with the mandible slot selected. -/
theorem single_leg_entry_exit_witness :
    analogModeOK circlePacket = true
    ∧ (afterStart standingState circlePacket).g_InControlState.fHexOn = true
    ∧ circlePacket.ButtonPressed PSB.CIRCLE = true
    ∧ circlePacket.ButtonPressed PSB.SELECT = false
    ∧ standingState.ControlMode ≠ SINGLELEGMODE
    ∧ standingState.g_InControlState.SelectedLeg = 255
    ∧ (ControlInput sampleConfig standingState circlePacket).ControlMode = SINGLELEGMODE
    ∧ (ControlInput sampleConfig standingState circlePacket).g_InControlState.SelectedLeg
        = 6 :=
  ⟨by decide, by decide, by decide, by decide, by decide, by decide,
    ((single_leg_entry_exit sampleConfig standingState circlePacket
      (by decide) (by decide) (by decide) (by decide) (by decide) (by decide)
      (by decide)).1 (by decide)).2.2.1,
    (((single_leg_entry_exit sampleConfig standingState circlePacket
      (by decide) (by decide) (by decide) (by decide) (by decide) (by decide)
      (by decide)).1 (by decide)).2.2.2.1 (by decide)).trans (by decide)⟩

/-! ## C11: switching legs with Select -/

/-- The block `[SWITCH MODES]` without any mode-button edge. -/
theorem switchModes_none (cfg : Config) (s : State) (r : Inputs)
    (hL1 : r.ButtonPressed PSB.L1 = false) (hL2 : r.ButtonPressed PSB.L2 = false)
    (hO : r.ButtonPressed PSB.CIRCLE = false) (hX : r.ButtonPressed PSB.CROSS = false) :
    switchModes cfg s r = s := by
  simp [switchModes, switchGPPlayer, switchSingleLeg, switchRotate, switchTranslate,
    hL1, hL2, hO, hX]

/-- One Select cycle in single leg mode with the hexapod on. -/
theorem select_cycle (cfg : Config) (s : State) (r : Inputs)
    (hon : s.g_InControlState.fHexOn = true) (hmode : s.ControlMode = SINGLELEGMODE)
    (hr : selectCycle r = true) :
    (ControlInput cfg s r).g_InControlState.fHexOn = true
    ∧ (ControlInput cfg s r).ControlMode = SINGLELEGMODE
    ∧ (ControlInput cfg s r).g_InControlState.SelectedLeg
        = if s.g_InControlState.SelectedLeg < 6 then s.g_InControlState.SelectedLeg + 1
          else 0 := by
  simp only [selectCycle, Bool.and_eq_true, Bool.not_eq_true'] at hr
  obtain ⟨⟨⟨⟨⟨⟨hok, hsel⟩, hS⟩, hL1⟩, hL2⟩, hO⟩, hX⟩ := hr
  have hon1 : (afterStart s r).g_InControlState.fHexOn = true := by
    simp [afterStart, startButton, hS, hon]
  have hst := afterStart_of_on s r hon1
  refine ⟨?_, ?_, ?_⟩
  · rw [ControlInput_fHexOn cfg s r hok, hon1]
  · rw [ControlInput_ControlMode cfg s r hok hon1, switchModes_none cfg _ r hL1 hL2 hO hX, hst]
    exact hmode
  · rw [ControlInput_valid cfg s r hok]
    simp only [validCycle, hon1, if_true, bodyPosY_SelectedLeg, hexOn_SelectedLeg_eq,
      switchModes_none cfg _ r hL1 hL2 hO hX, hst]
    simp [hmode, hsel]

/-- Any number of Select cycles in single leg mode: the selected leg moves
round the seven slots. -/
theorem select_run (cfg : Config) (reads : List Inputs) (s : State)
    (hon : s.g_InControlState.fHexOn = true) (hmode : s.ControlMode = SINGLELEGMODE)
    (hleg : s.g_InControlState.SelectedLeg ≤ 6)
    (hreads : ∀ r ∈ reads, selectCycle r = true) :
    (runCycles cfg s reads).g_InControlState.SelectedLeg
      = (s.g_InControlState.SelectedLeg + reads.length) % 7 := by
  induction reads generalizing s with
  | nil => simp [runCycles_nil]; omega
  | cons r rs ih =>
    obtain ⟨on1, mode1, leg1⟩ := select_cycle cfg s r hon hmode (hreads r (by simp))
    have hle1 : (ControlInput cfg s r).g_InControlState.SelectedLeg ≤ 6 := by
      rw [leg1]; split_ifs <;> omega
    rw [runCycles_cons, ih (ControlInput cfg s r) on1 mode1 hle1
      (fun r' hr' => hreads r' (by simp [hr'])), leg1, List.length_cons]
    split_ifs <;> omega

/-- C11. With the hexapod on in single leg mode and a leg `0..6` selected, a
valid cycle with a Select edge and no Start, L1, L2, Circle or Cross edge sets
`SelectedLeg` to the next leg, 0 following 6; under any number of such cycles
`SelectedLeg` stays within `0..6`, is back at its starting value after seven of
them and at no smaller positive number of them. -/
theorem leg_cycling (cfg : Config) (s : State) (r : Inputs) (reads : List Inputs)
    (hon : s.g_InControlState.fHexOn = true) (hmode : s.ControlMode = SINGLELEGMODE)
    (hleg : s.g_InControlState.SelectedLeg ≤ 6)
    (hr : selectCycle r = true) (hreads : ∀ r' ∈ reads, selectCycle r' = true) :
    (ControlInput cfg s r).g_InControlState.SelectedLeg
        = (if s.g_InControlState.SelectedLeg < 6 then s.g_InControlState.SelectedLeg + 1
           else 0)
    ∧ (runCycles cfg s reads).g_InControlState.SelectedLeg ≤ 6
    ∧ (reads.length = 7 →
        (runCycles cfg s reads).g_InControlState.SelectedLeg = s.g_InControlState.SelectedLeg)
    ∧ (0 < reads.length → reads.length < 7 →
        (runCycles cfg s reads).g_InControlState.SelectedLeg
          ≠ s.g_InControlState.SelectedLeg) := by
  have hrun := select_run cfg reads s hon hmode hleg hreads
  refine ⟨(select_cycle cfg s r hon hmode hr).2.2, ?_, ?_, ?_⟩
  · rw [hrun]; omega
  · intro h7; rw [hrun, h7]; omega
  · intro h0 h7; rw [hrun]; omega

/-- Witness for C11: seven Select cycles starting from leg 3. -/
theorem leg_cycling_witness :
    singleLegState.g_InControlState.fHexOn = true
    ∧ singleLegState.ControlMode = SINGLELEGMODE
    ∧ singleLegState.g_InControlState.SelectedLeg = 3
    ∧ selectCycle selectPacket = true
    ∧ (ControlInput sampleConfig singleLegState selectPacket).g_InControlState.SelectedLeg = 4
    ∧ (runCycles sampleConfig singleLegState (List.replicate 7 selectPacket)
        ).g_InControlState.SelectedLeg = 3 :=
  ⟨by decide, by decide, by decide, by decide,
    (leg_cycling sampleConfig singleLegState selectPacket (List.replicate 7 selectPacket)
      (by decide) (by decide) (by decide) (by decide) (by decide)).1,
    (leg_cycling sampleConfig singleLegState selectPacket (List.replicate 7 selectPacket)
      (by decide) (by decide) (by decide) (by decide) (by decide)).2.2.1 (by decide)⟩

/-! ## C12: the sentinel outside single leg mode -/

/-- C12, counterexample. From the hexapod at rest (off, Walk mode, no leg
selected): Start, then Circle (single leg mode, leg 6), then L2 (Rotate mode,
leg 6 kept), then a cycle with nothing pressed.  The last cycle does not
change the mode, it ends in Rotate mode, and `SelectedLeg` is still 6. -/
theorem sentinel_outside_single_leg_counterexample :
    restState.g_InControlState.fHexOn = false ∧ restState.ControlMode = WALKMODE
    ∧ restState.g_InControlState.SelectedLeg = 255
    ∧ (runCycles sampleConfig restState
        [startIdlePacket, circlePacket, l2Packet]).ControlMode = ROTATEMODE
    ∧ (runCycles sampleConfig restState
        [startIdlePacket, circlePacket, l2Packet, idlePacket]).ControlMode = ROTATEMODE
    ∧ (runCycles sampleConfig restState
        [startIdlePacket, circlePacket, l2Packet, idlePacket]).g_InControlState.SelectedLeg
        = 6 := by
  decide

theorem startButton_walk (s : State) (r : Inputs)
    (h : s.ControlMode = WALKMODE → s.g_InControlState.SelectedLeg = 255) :
    (startButton s r).ControlMode = WALKMODE →
      (startButton s r).g_InControlState.SelectedLeg = 255 := by
  unfold startButton
  split_ifs
  · intro _; rfl
  · exact h
  · exact h

theorem switchModes_walk (cfg : Config) (s : State) (r : Inputs)
    (hgp : (cfg.OPT_GPPLAYER && r.ButtonPressed PSB.CROSS) = false)
    (h : s.ControlMode = WALKMODE → s.g_InControlState.SelectedLeg = 255) :
    (switchModes cfg s r).ControlMode = WALKMODE →
      (switchModes cfg s r).g_InControlState.SelectedLeg = 255 := by
  have h1 : (switchTranslate s r).ControlMode = WALKMODE →
      (switchTranslate s r).g_InControlState.SelectedLeg = 255 := by
    unfold switchTranslate
    split_ifs <;> simp_all [WALKMODE, TRANSLATEMODE, SINGLELEGMODE]
  have h2 : (switchRotate (switchTranslate s r) r).ControlMode = WALKMODE →
      (switchRotate (switchTranslate s r) r).g_InControlState.SelectedLeg = 255 := by
    unfold switchRotate
    split_ifs <;> simp_all [WALKMODE, ROTATEMODE, SINGLELEGMODE]
  have h3 : (switchSingleLeg (switchRotate (switchTranslate s r) r) r).ControlMode = WALKMODE →
      (switchSingleLeg (switchRotate (switchTranslate s r) r) r).g_InControlState.SelectedLeg
        = 255 := by
    unfold switchSingleLeg
    split_ifs <;> simp_all [WALKMODE, SINGLELEGMODE]
  unfold switchModes switchGPPlayer
  rw [hgp]
  simpa using h3

/-- One cycle in which the GP player toggle does not fire keeps the sentinel
in Walk mode. -/
theorem walk_step (cfg : Config) (s : State) (r : Inputs)
    (hgp : (cfg.OPT_GPPLAYER && r.ButtonPressed PSB.CROSS) = false)
    (h : s.ControlMode = WALKMODE → s.g_InControlState.SelectedLeg = 255) :
    (ControlInput cfg s r).ControlMode = WALKMODE →
      (ControlInput cfg s r).g_InControlState.SelectedLeg = 255 := by
  have hst : (afterStart s r).ControlMode = WALKMODE →
      (afterStart s r).g_InControlState.SelectedLeg = 255 :=
    startButton_walk { s with g_sPS2ErrorCnt := 0 } r h
  unfold ControlInput
  split_ifs
  · simp only [validCycle, bodyPosY_ControlMode, bodyPosY_SelectedLeg]
    split_ifs
    · rw [hexOn_ControlMode_eq, hexOn_SelectedLeg_eq]
      intro hw
      have hne : ¬ ((switchModes cfg (afterStart s r) r).ControlMode = SINGLELEGMODE
          ∧ r.ButtonPressed PSB.SELECT = true) := by
        rw [hw]; simp [WALKMODE, SINGLELEGMODE]
      rw [if_neg hne]
      exact switchModes_walk cfg _ r hgp hst hw
    · exact hst
  · unfold lostCycle
    split_ifs
    · exact h
    · intro _; rfl
    · exact h

/-- When the block `[SWITCH MODES]` leaves Translate or Rotate mode it has not
touched the selected leg. -/
theorem switchModes_keeps_leg (cfg : Config) (s : State) (r : Inputs)
    (h : (switchModes cfg s r).ControlMode = TRANSLATEMODE
      ∨ (switchModes cfg s r).ControlMode = ROTATEMODE) :
    (switchModes cfg s r).g_InControlState.SelectedLeg = s.g_InControlState.SelectedLeg := by
  have hX : (switchRotate (switchTranslate s r) r).g_InControlState.SelectedLeg
      = s.g_InControlState.SelectedLeg := by simp
  unfold switchModes switchGPPlayer at h ⊢
  split_ifs at h ⊢
  · simp [GPPLAYERMODE, TRANSLATEMODE, ROTATEMODE] at h
  · simp [WALKMODE, TRANSLATEMODE, ROTATEMODE] at h
  · rw [← hX]
    unfold switchSingleLeg at h ⊢
    split_ifs at h ⊢ <;>
      first
        | rfl
        | (exfalso; simp [SINGLELEGMODE, WALKMODE, TRANSLATEMODE, ROTATEMODE] at h)

/-- A cycle that ends with the hexapod on in Translate or Rotate mode leaves
the selected leg as it was. -/
theorem keeps_leg_step (cfg : Config) (s : State) (r : Inputs)
    (hmode : (ControlInput cfg s r).ControlMode = TRANSLATEMODE
      ∨ (ControlInput cfg s r).ControlMode = ROTATEMODE)
    (hon : (ControlInput cfg s r).g_InControlState.fHexOn = true) :
    (ControlInput cfg s r).g_InControlState.SelectedLeg = s.g_InControlState.SelectedLeg := by
  by_cases hok : analogModeOK r = true
  · have hon1 : (afterStart s r).g_InControlState.fHexOn = true := by
      rw [← ControlInput_fHexOn cfg s r hok]; exact hon
    rw [ControlInput_ControlMode cfg s r hok hon1] at hmode
    have hne : ¬ ((switchModes cfg (afterStart s r) r).ControlMode = SINGLELEGMODE
        ∧ r.ButtonPressed PSB.SELECT = true) := by
      rcases hmode with h | h <;> rw [h] <;> simp [TRANSLATEMODE, ROTATEMODE, SINGLELEGMODE]
    rw [ControlInput_SelectedLeg_eq cfg s r hok hon1, if_neg hne,
      switchModes_keeps_leg cfg _ r hmode, afterStart_of_on s r hon1]
  · have hbad : analogModeOK r = false := by simpa using hok
    rw [ControlInput_lost cfg s r hbad] at hon ⊢
    unfold lostCycle at hon ⊢
    split_ifs at hon ⊢
    · rfl
    · simp [PS2TurnRobotOff] at hon
    · rfl

/-- C12, amended. In every state reached from a state with `SelectedLeg = 255`
(the startup state, off in Walk mode with no leg selected, is one) by cycles
in which the GP player toggle never fires (the feature is not compiled in, or
no Cross edge arrives), `SelectedLeg = 255` whenever the mode is Walk.  In
Translate and Rotate mode the selected leg is not cleared: every cycle, from
any state, that ends with the hexapod on in Translate or Rotate mode leaves
`SelectedLeg` as it was before the cycle. -/
theorem sentinel_in_walk_mode (cfg : Config) (s0 : State) (reads : List Inputs)
    (hleg0 : s0.g_InControlState.SelectedLeg = 255)
    (hgp : ∀ r ∈ reads, (cfg.OPT_GPPLAYER && r.ButtonPressed PSB.CROSS) = false) :
    ((runCycles cfg s0 reads).ControlMode = WALKMODE →
      (runCycles cfg s0 reads).g_InControlState.SelectedLeg = 255)
    ∧ (∀ (s : State) (r : Inputs),
        ((ControlInput cfg s r).ControlMode = TRANSLATEMODE
          ∨ (ControlInput cfg s r).ControlMode = ROTATEMODE) →
        (ControlInput cfg s r).g_InControlState.fHexOn = true →
        (ControlInput cfg s r).g_InControlState.SelectedLeg
          = s.g_InControlState.SelectedLeg) := by
  have key : ∀ (rs : List Inputs) (s : State),
      (∀ r ∈ rs, (cfg.OPT_GPPLAYER && r.ButtonPressed PSB.CROSS) = false) →
      (s.ControlMode = WALKMODE → s.g_InControlState.SelectedLeg = 255) →
      (runCycles cfg s rs).ControlMode = WALKMODE →
        (runCycles cfg s rs).g_InControlState.SelectedLeg = 255 := by
    intro rs
    induction rs with
    | nil => intro s _ h; exact h
    | cons r rs ih =>
      intro s hrs h
      rw [runCycles_cons]
      exact ih (ControlInput cfg s r) (fun r' hr' => hrs r' (by simp [hr']))
        (walk_step cfg s r (hrs r (by simp)) h)
  exact ⟨key reads s0 hgp (fun _ => hleg0), fun s r => keeps_leg_step cfg s r⟩

/-- Witness for C12 (amended): into single leg mode and out again with Circle. -/
theorem sentinel_in_walk_mode_witness :
    restState.ControlMode = WALKMODE ∧ restState.g_InControlState.SelectedLeg = 255
    ∧ (runCycles sampleConfig restState
        [startIdlePacket, circlePacket, selectPacket, circlePacket]).ControlMode = WALKMODE
    ∧ (runCycles sampleConfig restState
        [startIdlePacket, circlePacket, selectPacket, circlePacket]
        ).g_InControlState.SelectedLeg = 255 :=
  ⟨by decide, by decide, by decide,
    (sentinel_in_walk_mode sampleConfig restState
      [startIdlePacket, circlePacket, selectPacket, circlePacket]
      (by decide) (by decide)).1 (by decide)⟩

/-! ## C13: the sentinel inside single leg mode -/

/-- C13, counterexample. From the hexapod at rest (off, Walk mode, no leg
selected): Start, then Circle (single leg mode, leg 6), then Start again.
`PS2TurnRobotOff` sets `SelectedLeg = 255` and leaves `ControlMode`, so the
run ends in single leg mode with the sentinel selected; switching on again
does not change that. -/
theorem no_sentinel_in_single_leg_counterexample :
    restState.g_InControlState.fHexOn = false ∧ restState.ControlMode = WALKMODE
    ∧ restState.g_InControlState.SelectedLeg = 255
    ∧ (runCycles sampleConfig restState
        [startIdlePacket, circlePacket, startIdlePacket]).ControlMode = SINGLELEGMODE
    ∧ (runCycles sampleConfig restState
        [startIdlePacket, circlePacket, startIdlePacket]).g_InControlState.SelectedLeg = 255
    ∧ (runCycles sampleConfig restState
        [startIdlePacket, circlePacket, startIdlePacket, startIdlePacket]).ControlMode
        = SINGLELEGMODE
    ∧ (runCycles sampleConfig restState
        [startIdlePacket, circlePacket, startIdlePacket, startIdlePacket]
        ).g_InControlState.fHexOn = true
    ∧ (runCycles sampleConfig restState
        [startIdlePacket, circlePacket, startIdlePacket, startIdlePacket]
        ).g_InControlState.SelectedLeg = 255 := by
  decide

theorem switchModes_legSelected (cfg : Config) (s : State) (r : Inputs) (h : legSelected s) :
    legSelected (switchModes cfg s r) := by
  have h1 : legSelected (switchTranslate s r) := by
    unfold legSelected switchTranslate at *
    split_ifs <;> simp_all [TRANSLATEMODE, WALKMODE, SINGLELEGMODE]
  have h2 : legSelected (switchRotate (switchTranslate s r) r) := by
    unfold legSelected switchRotate at *
    split_ifs <;> simp_all [ROTATEMODE, WALKMODE, SINGLELEGMODE]
  have h3 : legSelected (switchSingleLeg (switchRotate (switchTranslate s r) r) r) := by
    unfold legSelected switchSingleLeg at *
    split_ifs <;> simp_all [WALKMODE, SINGLELEGMODE]
  unfold switchModes
  unfold legSelected switchGPPlayer at *
  split_ifs <;> simp_all [GPPLAYERMODE, WALKMODE, SINGLELEGMODE]

theorem hexOn_legSelected (cfg : Config) (s : State) (r : Inputs) (h : legSelected s) :
    legSelected (hexOn cfg s r) := by
  have h1 := switchModes_legSelected cfg s r h
  unfold legSelected at h1 ⊢
  rw [hexOn_ControlMode_eq, hexOn_SelectedLeg_eq]
  split_ifs <;> simp_all
  omega

/-- One cycle that does not call `PS2TurnRobotOff` in single leg mode keeps
a leg selected in single leg mode. -/
theorem legSelected_step (cfg : Config) (s : State) (r : Inputs)
    (hno : resetsInSingleLeg s r = false) (h : legSelected s) :
    legSelected (ControlInput cfg s r) := by
  unfold ControlInput
  by_cases hok : analogModeOK r = true
  · rw [if_pos hok]
    have hst : legSelected (afterStart s r) := by
      unfold afterStart startButton
      split_ifs with hS hon
      · have hon1 : s.g_InControlState.fHexOn = true := hon
        have hm : s.ControlMode ≠ SINGLELEGMODE := by
          intro hm
          simp [resetsInSingleLeg, hm, hon1, hok, hS] at hno
        unfold legSelected
        simp [PS2TurnRobotOff, hm]
      · exact h
      · exact h
    unfold validCycle
    split_ifs
    · have := hexOn_legSelected cfg _ r hst
      unfold legSelected at this ⊢
      simpa using this
    · unfold legSelected at hst ⊢
      simpa using hst
  · rw [if_neg hok]
    unfold lostCycle
    split_ifs with herr hon
    · exact h
    · have hm : s.ControlMode ≠ SINGLELEGMODE := by
        intro hm
        simp [resetsInSingleLeg, hm, hon, hok, herr] at hno
      unfold legSelected
      simp [PS2TurnRobotOff, hm]
    · exact h

/-- C13, amended. In every state reached from a state with `SelectedLeg = 255`
outside single leg mode (the startup state, off in Walk mode, is one) by
cycles none of which calls `PS2TurnRobotOff` while the mode is single leg
mode, single leg mode implies `SelectedLeg ≤ 6`.  A cycle that does call
`PS2TurnRobotOff` in single leg mode (Start edge while on, or the watchdog)
ends in single leg mode with `SelectedLeg = 255`. -/
theorem single_leg_has_leg (cfg : Config) (s0 : State) (reads : List Inputs)
    (hmode0 : s0.ControlMode ≠ SINGLELEGMODE) (hleg0 : s0.g_InControlState.SelectedLeg = 255)
    (hnever : neverResetsInSingleLeg cfg s0 reads = true) :
    ((runCycles cfg s0 reads).ControlMode = SINGLELEGMODE →
        (runCycles cfg s0 reads).g_InControlState.SelectedLeg ≤ 6)
    ∧ (∀ (s : State) (r : Inputs), resetsInSingleLeg s r = true →
        (ControlInput cfg s r).ControlMode = SINGLELEGMODE
        ∧ (ControlInput cfg s r).g_InControlState.SelectedLeg = 255) := by
  constructor
  · have key : ∀ (rs : List Inputs) (s : State), neverResetsInSingleLeg cfg s rs = true →
        legSelected s → legSelected (runCycles cfg s rs) := by
      intro rs
      induction rs with
      | nil => intro s _ h; exact h
      | cons r rs ih =>
        intro s hrs h
        simp only [neverResetsInSingleLeg, Bool.and_eq_true, Bool.not_eq_true'] at hrs
        rw [runCycles_cons]
        exact ih (ControlInput cfg s r) hrs.2 (legSelected_step cfg s r hrs.1 h)
    exact (key reads s0 hnever ⟨Or.inr hleg0, fun hm => absurd hm hmode0⟩).2
  · intro s r hres
    simp only [resetsInSingleLeg, Bool.and_eq_true, beq_iff_eq] at hres
    obtain ⟨⟨hm, hon⟩, hcase⟩ := hres
    by_cases hok : analogModeOK r = true
    · rw [if_pos hok] at hcase
      rw [ControlInput_valid cfg s r hok]
      simp [validCycle, afterStart, startButton, hcase, hon, PS2TurnRobotOff, hm]
    · rw [if_neg hok] at hcase
      have hbad : analogModeOK r = false := by simpa using hok
      have herr : ¬ s.g_sPS2ErrorCnt < MAXPS2ERRORCNT := by simpa using hcase
      rw [ControlInput_lost cfg s r hbad]
      simp [lostCycle, herr, hon, PS2TurnRobotOff, hm]

/-- Witness for C13 (amended): into single leg mode, Select seven times, and
the hexapod is never switched off there. -/
theorem single_leg_has_leg_witness :
    restState.ControlMode ≠ SINGLELEGMODE ∧ restState.g_InControlState.SelectedLeg = 255
    ∧ neverResetsInSingleLeg sampleConfig restState
        [startIdlePacket, circlePacket, selectPacket, selectPacket] = true
    ∧ (runCycles sampleConfig restState
        [startIdlePacket, circlePacket, selectPacket, selectPacket]).ControlMode
        = SINGLELEGMODE
    ∧ (runCycles sampleConfig restState
        [startIdlePacket, circlePacket, selectPacket, selectPacket]
        ).g_InControlState.SelectedLeg ≤ 6 :=
  ⟨by decide, by decide, by decide, by decide,
    (single_leg_has_leg sampleConfig restState
      [startIdlePacket, circlePacket, selectPacket, selectPacket]
      (by decide) (by decide) (by decide)).1 (by decide)⟩

/-! ## C14: the mandible closure -/

/-- Whatever `mandibleClose` and `mandibleOpen` preserve of `ManClos`, a whole
cycle preserves: no other step writes `ManClos`. -/
theorem ControlInput_ManClos (cfg : Config) (s : State) (r : Inputs) (P : COORD2D → Prop)
    (hclose : ∀ X : State, P X.g_InControlState.ManClos →
      P (mandibleClose cfg X r).g_InControlState.ManClos)
    (hopen : ∀ X : State, P X.g_InControlState.ManClos →
      P (mandibleOpen cfg X r).g_InControlState.ManClos)
    (h : P s.g_InControlState.ManClos) :
    P (ControlInput cfg s r).g_InControlState.ManClos := by
  unfold ControlInput
  split_ifs
  · simp only [validCycle, bodyPosY_ManClos]
    split_ifs
    · simp only [hexOn, timeDelay_ManClos, gpPlayerFunctions_ManClos]
      unfold singleLegFunctions
      split_ifs
      · simp only [holdButton_ManClos]
        unfold mandibleOrLeg
        split_ifs
        · simp only [mandibleSticks_ManClos]
          apply hopen
          apply hclose
          simpa using h
        · simpa using h
      · simpa using h
    · simpa using h
  · unfold lostCycle
    split_ifs
    · exact h
    · simpa using h
    · exact h

/-- C14. With `cMandLeftMIN1 ≤ cMandLeftMAX1` and
`cMandRightMIN1 ≤ cMandRightMAX1`, if `ManClos.x` and `ManClos.y` lie within
their limits before a cycle they do after it, for every packet (R1 held, L1
held, both or neither); and when L1 is not held a `ManClos.x` that stands at
`cMandLeftMAX1` stays there (in particular with the mandible slot selected
and R1 held). -/
theorem mandible_closure_range (cfg : Config) (s : State) (r : Inputs)
    (hleft : cfg.cMandLeftMIN1 ≤ cfg.cMandLeftMAX1)
    (hright : cfg.cMandRightMIN1 ≤ cfg.cMandRightMAX1)
    (hin : closureInRange cfg s) :
    closureInRange cfg (ControlInput cfg s r)
    ∧ (r.Button PSB.L1 = false → s.g_InControlState.ManClos.x = cfg.cMandLeftMAX1 →
        (ControlInput cfg s r).g_InControlState.ManClos.x = cfg.cMandLeftMAX1) := by
  constructor
  · apply ControlInput_ManClos cfg s r
      (fun c => cfg.cMandLeftMIN1 ≤ c.x ∧ c.x ≤ cfg.cMandLeftMAX1
        ∧ cfg.cMandRightMIN1 ≤ c.y ∧ c.y ≤ cfg.cMandRightMAX1)
    · intro X hX
      unfold mandibleClose
      split_ifs <;> (try simp only) <;> omega
    · intro X hX
      unfold mandibleOpen
      split_ifs <;> (try simp only) <;> omega
    · exact hin
  · intro hL1 hmax
    apply ControlInput_ManClos cfg s r (fun c => c.x = cfg.cMandLeftMAX1)
    · intro X hX
      unfold mandibleClose
      split_ifs <;> (try simp only) <;> omega
    · intro X hX
      unfold mandibleOpen
      simp [hL1, hX]
    · exact hmax

/-- Witness for C14: the mandible slot selected, the left closure at its
limit 2000 and the right one at 1950, R1 held. -/
theorem mandible_closure_range_witness :
    sampleConfig.cMandLeftMIN1 ≤ sampleConfig.cMandLeftMAX1
    ∧ sampleConfig.cMandRightMIN1 ≤ sampleConfig.cMandRightMAX1
    ∧ mandibleState.g_InControlState.ManClos = ⟨2000, 1950⟩
    ∧ (ControlInput sampleConfig mandibleState r1HeldPacket).g_InControlState.ManClos
        = ⟨2000, 2000⟩
    ∧ closureInRange sampleConfig (ControlInput sampleConfig mandibleState r1HeldPacket) :=
  ⟨by decide, by decide, by decide, by decide,
    (mandible_closure_range sampleConfig mandibleState r1HeldPacket
      (by decide) (by decide) (by decide)).1⟩

/-! ## C15: the stick mapping of walk mode -/

/-- The travel length left by lines 324-338, from the walk method, the
double travel flag, the previous travel length and the sticks. -/
theorem walkSticks_pipeline (X : State) (r : Inputs) :
    (walkRotation (halveTravel (walkSticks X r)) r).g_InControlState.TravelLength
      = ⟨if X.WalkMethod = true then
            (if X.DoubleTravelOn = true then X.g_InControlState.TravelLength.x
             else Int.tdiv X.g_InControlState.TravelLength.x 2)
          else
            (if X.DoubleTravelOn = true then -(centred r.PSS_LX)
             else Int.tdiv (-(centred r.PSS_LX)) 2),
         Int.tdiv (-(centred r.PSS_RX)) 4,
         if X.WalkMethod = true then
            (if X.DoubleTravelOn = true then centred r.PSS_RY
             else Int.tdiv (centred r.PSS_RY) 2)
          else
            (if X.DoubleTravelOn = true then centred r.PSS_LY
             else Int.tdiv (centred r.PSS_LY) 2)⟩ := by
  cases hw : X.WalkMethod <;> cases hd : X.DoubleTravelOn <;>
    simp [walkRotation, halveTravel, walkSticks, hw, hd]

/-- The walk block when no button is newly pressed. -/
theorem walkFunctions_none (cfg : Config) (X : State) (r : Inputs)
    (hmode : X.ControlMode = WALKMODE) (hnone : ∀ b, r.ButtonPressed b = false) :
    walkFunctions cfg X r = walkRotation (halveTravel (walkSticks X r)) r := by
  simp [walkFunctions, hmode, gaitButton, doubleHeightButton, doubleTravelButton,
    walkMethodButton, hnone]

/-- The travel length at the end of a valid cycle in walk mode with the
hexapod on and no button newly pressed. -/
theorem ControlInput_walk_none (cfg : Config) (s : State) (r : Inputs)
    (hok : analogModeOK r = true) (hon : s.g_InControlState.fHexOn = true)
    (hmode : s.ControlMode = WALKMODE) (hnone : ∀ b, r.ButtonPressed b = false) :
    (ControlInput cfg s r).g_InControlState.TravelLength
      = ⟨if s.WalkMethod = true then
            (if s.DoubleTravelOn = true then s.g_InControlState.TravelLength.x
             else Int.tdiv s.g_InControlState.TravelLength.x 2)
          else
            (if s.DoubleTravelOn = true then -(centred r.PSS_LX)
             else Int.tdiv (-(centred r.PSS_LX)) 2),
         Int.tdiv (-(centred r.PSS_RX)) 4,
         if s.WalkMethod = true then
            (if s.DoubleTravelOn = true then centred r.PSS_RY
             else Int.tdiv (centred r.PSS_RY) 2)
          else
            (if s.DoubleTravelOn = true then centred r.PSS_LY
             else Int.tdiv (centred r.PSS_LY) 2)⟩ := by
  have hon1 : (afterStart s r).g_InControlState.fHexOn = true := by
    simp [afterStart, startButton, hnone, hon]
  have hst := afterStart_of_on s r hon1
  have hsw : switchModes cfg (afterStart s r) r = afterStart s r :=
    switchModes_none cfg _ r (hnone _) (hnone _) (hnone _) (hnone _)
  have hm : (commonFunctions (afterStart s r) r).ControlMode = WALKMODE := by
    rw [commonFunctions_ControlMode, hst]; exact hmode
  rw [ControlInput_valid cfg s r hok]
  simp only [validCycle, hon1, if_true, bodyPosY_TravelLength, hexOn, timeDelay_TravelLength,
    gpPlayerFunctions_TravelLength, singleLegFunctions_TravelLength,
    rotateFunctions_TravelLength, translateFunctions_TravelLength, hsw,
    walkFunctions_none cfg _ r hm hnone, walkSticks_pipeline, commonFunctions_WalkMethod,
    commonFunctions_DoubleTravelOn, commonFunctions_TravelLength]
  rw [hst]

/-- C15. With the hexapod on in walk mode, walk method 1 and no button newly
pressed, a valid cycle sets `TravelLength.y = (-(rightStickX - 128)) / 4` and,
without double travel, `TravelLength.x = (-(leftStickX - 128)) / 2` and
`TravelLength.z = (leftStickY - 128) / 2`, the division truncating toward
zero: `leftStickX = 228` gives `x = -50` and `leftStickX = 129` gives `x = 0`.
With double travel on, x and z are not halved. -/
theorem walk_strafe_mapping (cfg : Config) (s : State) (r : Inputs)
    (hok : analogModeOK r = true) (hon : s.g_InControlState.fHexOn = true)
    (hmode : s.ControlMode = WALKMODE) (hwm : s.WalkMethod = false)
    (hnone : ∀ b, r.ButtonPressed b = false) :
    (ControlInput cfg s r).g_InControlState.TravelLength.y
        = Int.tdiv (-((r.PSS_RX : Int) - 128)) 4
    ∧ (s.DoubleTravelOn = false →
        (ControlInput cfg s r).g_InControlState.TravelLength.x
          = Int.tdiv (-((r.PSS_LX : Int) - 128)) 2
        ∧ (ControlInput cfg s r).g_InControlState.TravelLength.z
          = Int.tdiv ((r.PSS_LY : Int) - 128) 2)
    ∧ (s.DoubleTravelOn = false → r.PSS_LX = 228 →
        (ControlInput cfg s r).g_InControlState.TravelLength.x = -50)
    ∧ (s.DoubleTravelOn = false → r.PSS_LX = 129 →
        (ControlInput cfg s r).g_InControlState.TravelLength.x = 0)
    ∧ (s.DoubleTravelOn = true →
        (ControlInput cfg s r).g_InControlState.TravelLength.x = -((r.PSS_LX : Int) - 128)
        ∧ (ControlInput cfg s r).g_InControlState.TravelLength.z
          = (r.PSS_LY : Int) - 128) := by
  rw [ControlInput_walk_none cfg s r hok hon hmode hnone]
  refine ⟨rfl, ?_, ?_, ?_, ?_⟩
  · intro hd
    simp [hwm, hd, centred]
  · intro hd hx
    simp [hwm, hd, centred, hx]
    decide
  · intro hd hx
    simp [hwm, hd, centred, hx]
    decide
  · intro hd
    simp [hwm, hd, centred]

/-- Witness for C15: standing in walk mode, the left stick pushed to 228. -/
theorem walk_strafe_mapping_witness :
    analogModeOK strafePacket = true ∧ standingState.g_InControlState.fHexOn = true
    ∧ standingState.ControlMode = WALKMODE ∧ standingState.WalkMethod = false
    ∧ standingState.DoubleTravelOn = false ∧ strafePacket.PSS_LX = 228
    ∧ (ControlInput sampleConfig standingState strafePacket).g_InControlState.TravelLength.x
        = -50 :=
  ⟨by decide, by decide, by decide, by decide, by decide, by decide,
    (walk_strafe_mapping sampleConfig standingState strafePacket
      (by decide) (by decide) (by decide) (by decide) (by intro b; cases b <;> decide)).2.2.1
      (by decide) (by decide)⟩

/-! ## C16: centred sticks in walk mode -/

/-- The walking time delay at the end of a valid cycle with the hexapod on. -/
theorem ControlInput_InputTimeDelay (cfg : Config) (s : State) (r : Inputs)
    (hok : analogModeOK r = true) (hon : (afterStart s r).g_InControlState.fHexOn = true) :
    (ControlInput cfg s r).g_InControlState.InputTimeDelay
      = 128 - max (max |(r.PSS_LX : Int) - 128| |(r.PSS_LY : Int) - 128|)
          |(r.PSS_RX : Int) - 128| := by
  rw [ControlInput_valid cfg s r hok]
  simp [validCycle, hon, hexOn, timeDelay, bodyPosY, arduinoMax_eq, arduinoAbs_eq, centred]

/-- C16, counterexample. From the hexapod at rest: Start; then the left stick
at `x = 228` with an R2 edge (double travel on, `TravelLength.x = -100`); then
an R3 edge with the sticks centred (walk method 2).  The hexapod is now on in
walk mode, and a valid cycle with all sticks at 128 and nothing pressed
leaves `TravelLength = (-100, 0, 0)`, not `(0, 0, 0)`. -/
theorem centred_sticks_counterexample :
    analogModeOK idlePacket = true
    ∧ idlePacket.PSS_LX = 128 ∧ idlePacket.PSS_LY = 128
    ∧ idlePacket.PSS_RX = 128 ∧ idlePacket.PSS_RY = 128
    ∧ (runCycles sampleConfig restState
        [startIdlePacket, strafeR2Packet, r3Packet]).g_InControlState.fHexOn = true
    ∧ (runCycles sampleConfig restState
        [startIdlePacket, strafeR2Packet, r3Packet]).ControlMode = WALKMODE
    ∧ (runCycles sampleConfig restState
        [startIdlePacket, strafeR2Packet, r3Packet]).WalkMethod = true
    ∧ (ControlInput sampleConfig
        (runCycles sampleConfig restState [startIdlePacket, strafeR2Packet, r3Packet])
        idlePacket).g_InControlState.TravelLength = ⟨-100, 0, 0⟩ := by
  decide

/-- C16, amended. With the hexapod on in walk mode, a valid cycle with all
four stick bytes at 128 and no button newly pressed ends with
`TravelLength.y = TravelLength.z = 0` and `InputTimeDelay = 128`;
`TravelLength.x` is 0 under walk method 1, while under walk method 2 it is
not written from the sticks: it keeps its previous value with double travel
on and is its previous value halved (toward zero) otherwise. -/
theorem centred_sticks_in_walk (cfg : Config) (s : State) (r : Inputs)
    (hok : analogModeOK r = true) (hon : s.g_InControlState.fHexOn = true)
    (hmode : s.ControlMode = WALKMODE) (hnone : ∀ b, r.ButtonPressed b = false)
    (hlx : r.PSS_LX = 128) (hly : r.PSS_LY = 128) (hrx : r.PSS_RX = 128)
    (hry : r.PSS_RY = 128) :
    (ControlInput cfg s r).g_InControlState.TravelLength
        = ⟨if s.WalkMethod = true then
              (if s.DoubleTravelOn = true then s.g_InControlState.TravelLength.x
               else Int.tdiv s.g_InControlState.TravelLength.x 2)
            else 0, 0, 0⟩
    ∧ (ControlInput cfg s r).g_InControlState.InputTimeDelay = 128 := by
  have hon1 : (afterStart s r).g_InControlState.fHexOn = true := by
    simp [afterStart, startButton, hnone, hon]
  constructor
  · rw [ControlInput_walk_none cfg s r hok hon hmode hnone]
    cases hw : s.WalkMethod <;> cases hd : s.DoubleTravelOn <;>
      simp [centred, hlx, hly, hrx, hry]
  · rw [ControlInput_InputTimeDelay cfg s r hok hon1]
    simp [hlx, hly, hrx]

/-- Witness for C16 (amended): standing in walk mode under walk method 1. -/
theorem centred_sticks_in_walk_witness :
    analogModeOK idlePacket = true ∧ standingState.g_InControlState.fHexOn = true
    ∧ standingState.ControlMode = WALKMODE ∧ standingState.WalkMethod = false
    ∧ (ControlInput sampleConfig standingState idlePacket).g_InControlState.TravelLength
        = ⟨0, 0, 0⟩
    ∧ (ControlInput sampleConfig standingState idlePacket).g_InControlState.InputTimeDelay
        = 128 :=
  ⟨by decide, by decide, by decide, by decide,
    (centred_sticks_in_walk sampleConfig standingState idlePacket
      (by decide) (by decide) (by decide) (by intro b; cases b <;> decide)
      (by decide) (by decide) (by decide) (by decide)).1.trans (by decide),
    (centred_sticks_in_walk sampleConfig standingState idlePacket
      (by decide) (by decide) (by decide) (by intro b; cases b <;> decide)
      (by decide) (by decide) (by decide) (by decide)).2⟩

/-! ## C17: the walking time delay -/

/-- C17. In every valid cycle with the hexapod on after the Start handling,
in every mode, `InputTimeDelay = 128 - max(|leftStickX - 128|,
|leftStickY - 128|, |rightStickX - 128|)`; for stick bytes below 256 it lies
between 0 and 128; and a second such cycle whose three deflections are at
least as large gets a delay that is not larger. -/
theorem gait_pacing_delay (cfg : Config) (s s' : State) (r r' : Inputs)
    (hok : analogModeOK r = true) (hon : (afterStart s r).g_InControlState.fHexOn = true)
    (hok' : analogModeOK r' = true)
    (hon' : (afterStart s' r').g_InControlState.fHexOn = true) :
    (ControlInput cfg s r).g_InControlState.InputTimeDelay
        = 128 - max (max |(r.PSS_LX : Int) - 128| |(r.PSS_LY : Int) - 128|)
            |(r.PSS_RX : Int) - 128|
    ∧ (r.PSS_LX < 256 → r.PSS_LY < 256 → r.PSS_RX < 256 →
        0 ≤ (ControlInput cfg s r).g_InControlState.InputTimeDelay
        ∧ (ControlInput cfg s r).g_InControlState.InputTimeDelay ≤ 128)
    ∧ (|(r.PSS_LX : Int) - 128| ≤ |(r'.PSS_LX : Int) - 128| →
        |(r.PSS_LY : Int) - 128| ≤ |(r'.PSS_LY : Int) - 128| →
        |(r.PSS_RX : Int) - 128| ≤ |(r'.PSS_RX : Int) - 128| →
        (ControlInput cfg s' r').g_InControlState.InputTimeDelay
          ≤ (ControlInput cfg s r).g_InControlState.InputTimeDelay) := by
  rw [ControlInput_InputTimeDelay cfg s r hok hon,
    ControlInput_InputTimeDelay cfg s' r' hok' hon']
  refine ⟨rfl, ?_, ?_⟩
  · intro h1 h2 h3
    have a1 : |(r.PSS_LX : Int) - 128| ≤ 128 := by rw [abs_le]; omega
    have a2 : |(r.PSS_LY : Int) - 128| ≤ 128 := by rw [abs_le]; omega
    have a3 : |(r.PSS_RX : Int) - 128| ≤ 128 := by rw [abs_le]; omega
    have b1 : 0 ≤ |(r.PSS_RX : Int) - 128| := abs_nonneg _
    have hmax : max (max |(r.PSS_LX : Int) - 128| |(r.PSS_LY : Int) - 128|)
        |(r.PSS_RX : Int) - 128| ≤ 128 := max_le (max_le a1 a2) a3
    have hmin : 0 ≤ max (max |(r.PSS_LX : Int) - 128| |(r.PSS_LY : Int) - 128|)
        |(r.PSS_RX : Int) - 128| := le_trans b1 (le_max_right _ _)
    constructor <;> linarith
  · intro h1 h2 h3
    have hmono : max (max |(r.PSS_LX : Int) - 128| |(r.PSS_LY : Int) - 128|)
        |(r.PSS_RX : Int) - 128|
        ≤ max (max |(r'.PSS_LX : Int) - 128| |(r'.PSS_LY : Int) - 128|)
          |(r'.PSS_RX : Int) - 128| :=
      max_le_max (max_le_max h1 h2) h3
    linarith

/-- Witness for C17: walking with the left stick at 228, against centred
sticks. -/
theorem gait_pacing_delay_witness :
    analogModeOK idlePacket = true ∧ analogModeOK strafePacket = true
    ∧ (afterStart walkingState idlePacket).g_InControlState.fHexOn = true
    ∧ (afterStart walkingState strafePacket).g_InControlState.fHexOn = true
    ∧ (ControlInput sampleConfig walkingState strafePacket).g_InControlState.InputTimeDelay
        ≤ (ControlInput sampleConfig walkingState idlePacket).g_InControlState.InputTimeDelay :=
  ⟨by decide, by decide, by decide, by decide,
    (gait_pacing_delay sampleConfig walkingState walkingState idlePacket strafePacket
      (by decide) (by decide) (by decide) (by decide)).2.2
      (by decide) (by decide) (by decide)⟩

/-! ## C18: held at neutral while off -/

/-- C18. With the hexapod off, `BodyPos`, `BodyRot1` and `TravelLength` zero
and `g_BodyYOffset = g_BodyYShift = 0`, a cycle without a Start edge, valid or
not and whatever the sticks and the other buttons, leaves the hexapod off,
the three vectors zero, both height values zero, and the mode and the
selected leg as they were. -/
theorem held_at_neutral_while_off (cfg : Config) (s : State) (r : Inputs)
    (hoff : s.g_InControlState.fHexOn = false)
    (hpos : s.g_InControlState.BodyPos = ⟨0, 0, 0⟩)
    (hrot : s.g_InControlState.BodyRot1 = ⟨0, 0, 0⟩)
    (htl : s.g_InControlState.TravelLength = ⟨0, 0, 0⟩)
    (hoffset : s.g_BodyYOffset = 0) (hshift : s.g_BodyYShift = 0)
    (hS : r.ButtonPressed PSB.START = false) :
    (ControlInput cfg s r).g_InControlState.fHexOn = false
    ∧ (ControlInput cfg s r).g_InControlState.BodyPos = ⟨0, 0, 0⟩
    ∧ (ControlInput cfg s r).g_InControlState.BodyRot1 = ⟨0, 0, 0⟩
    ∧ (ControlInput cfg s r).g_InControlState.TravelLength = ⟨0, 0, 0⟩
    ∧ (ControlInput cfg s r).g_BodyYOffset = 0
    ∧ (ControlInput cfg s r).g_BodyYShift = 0
    ∧ (ControlInput cfg s r).ControlMode = s.ControlMode
    ∧ (ControlInput cfg s r).g_InControlState.SelectedLeg
        = s.g_InControlState.SelectedLeg := by
  unfold ControlInput
  split_ifs
  · simp [validCycle, afterStart, startButton, hS, hoff, bodyPosY, arduinoMax, hpos, hrot,
      htl, hoffset, hshift]
  · unfold lostCycle
    split_ifs
    · exact ⟨hoff, hpos, hrot, htl, hoffset, hshift, rfl, rfl⟩
    · simp_all
    · exact ⟨hoff, hpos, hrot, htl, hoffset, hshift, rfl, rfl⟩

/-- Witness for C18: the hexapod at rest, the left stick pushed and both
D-pad buttons held. -/
theorem held_at_neutral_while_off_witness :
    restState.g_InControlState.fHexOn = false
    ∧ restState.g_InControlState.BodyPos = ⟨0, 0, 0⟩
    ∧ restState.g_InControlState.TravelLength = ⟨0, 0, 0⟩
    ∧ strafePacket.ButtonPressed PSB.START = false
    ∧ (ControlInput sampleConfig restState strafePacket).g_InControlState.TravelLength
        = ⟨0, 0, 0⟩ :=
  ⟨by decide, by decide, by decide, by decide,
    (held_at_neutral_while_off sampleConfig restState strafePacket
      (by decide) (by decide) (by decide) (by decide) (by decide) (by decide)
      (by decide)).2.2.2.1⟩

/-! ## C19: the state after `Init` -/

/-- C19, counterexample. `Init` leaves `g_BodyYOffset = 65`, where
`PS2TurnRobotOff` leaves 0; with the hexapod still off, the first valid cycle
after `Init` writes `BodyPos.y = 65`. -/
theorem startup_offsets_counterexample :
    (Init restState).g_BodyYOffset = 65
    ∧ (PS2TurnRobotOff restState).g_BodyYOffset = 0
    ∧ (Init restState).g_InControlState.fHexOn = false
    ∧ analogModeOK idlePacket = true
    ∧ (ControlInput sampleConfig (Init restState) idlePacket).g_InControlState.fHexOn = false
    ∧ (ControlInput sampleConfig (Init restState) idlePacket).g_InControlState.BodyPos.y
        = 65 := by
  decide

/-- C19, amended. `Init` sets `g_BodyYOffset = 65` and `g_BodyYShift = 0`,
while `PS2TurnRobotOff` leaves both at 0; the first valid cycle after `Init`
with the hexapod off and no Start edge yields `BodyPos.y = 65`. -/
theorem startup_offsets (cfg : Config) (s : State) (r : Inputs)
    (hok : analogModeOK r = true) (hoff : s.g_InControlState.fHexOn = false)
    (hS : r.ButtonPressed PSB.START = false) :
    (Init s).g_BodyYOffset = 65 ∧ (Init s).g_BodyYShift = 0
    ∧ (PS2TurnRobotOff s).g_BodyYOffset = 0 ∧ (PS2TurnRobotOff s).g_BodyYShift = 0
    ∧ (ControlInput cfg (Init s) r).g_InControlState.BodyPos.y = 65 := by
  refine ⟨rfl, rfl, rfl, rfl, ?_⟩
  rw [ControlInput_valid cfg _ r hok]
  simp [validCycle, afterStart, startButton, hS, Init, hoff, bodyPosY, arduinoMax]

/-- Witness for C19 (amended): the hexapod at rest, first idle cycle after
`Init`. -/
theorem startup_offsets_witness :
    analogModeOK idlePacket = true ∧ restState.g_InControlState.fHexOn = false
    ∧ idlePacket.ButtonPressed PSB.START = false
    ∧ (ControlInput sampleConfig (Init restState) idlePacket).g_InControlState.BodyPos.y
        = 65 :=
  ⟨by decide, by decide, by decide,
    (startup_offsets sampleConfig restState idlePacket
      (by decide) (by decide) (by decide)).2.2.2.2⟩

/-! ## C20: `PS2TurnRobotOff` twice -/

/-- C20. `PS2TurnRobotOff` applied twice gives the same state, control state
and file-static variables alike, as `PS2TurnRobotOff` applied once. -/
theorem reset_idempotent (s : State) :
    PS2TurnRobotOff (PS2TurnRobotOff s) = PS2TurnRobotOff s := by
  unfold PS2TurnRobotOff
  rfl

/-! ## C21: what `PS2TurnRobotOff` leaves alone -/

/-- C21. `PS2TurnRobotOff` writes `BodyPos`, `BodyRot1`, `TravelLength`,
`g_BodyYOffset`, `g_BodyYShift`, `SelectedLeg` and `fHexOn` and nothing else:
the control mode, the walk method, the double travel and double height flags,
the error count, `SpeedControl`, `GaitType`, `BalanceMode`, `LegLiftHeight`,
`SLLeg`, `fSLHold`, `ManPos`, `ManClos`, `TailPos`, `InputTimeDelay` and `GPSeq`
are as before; so at line 180 of any later valid cycle, the one that switches
the hexapod on again included, the mode is the one in force when it was
switched off. -/
theorem reset_frame (s : State) (r : Inputs) :
    PS2TurnRobotOff s
        = { s with
            g_InControlState :=
              { s.g_InControlState with
                fHexOn := false
                BodyPos := ⟨0, 0, 0⟩
                BodyRot1 := ⟨0, 0, 0⟩
                TravelLength := ⟨0, 0, 0⟩
                SelectedLeg := 255 }
            g_BodyYOffset := 0
            g_BodyYShift := 0 }
    ∧ (PS2TurnRobotOff s).ControlMode = s.ControlMode
    ∧ (PS2TurnRobotOff s).WalkMethod = s.WalkMethod
    ∧ (PS2TurnRobotOff s).DoubleTravelOn = s.DoubleTravelOn
    ∧ (PS2TurnRobotOff s).DoubleHeightOn = s.DoubleHeightOn
    ∧ (PS2TurnRobotOff s).g_sPS2ErrorCnt = s.g_sPS2ErrorCnt
    ∧ (PS2TurnRobotOff s).GPSeq = s.GPSeq
    ∧ (PS2TurnRobotOff s).g_InControlState.SpeedControl = s.g_InControlState.SpeedControl
    ∧ (PS2TurnRobotOff s).g_InControlState.GaitType = s.g_InControlState.GaitType
    ∧ (PS2TurnRobotOff s).g_InControlState.BalanceMode = s.g_InControlState.BalanceMode
    ∧ (PS2TurnRobotOff s).g_InControlState.LegLiftHeight = s.g_InControlState.LegLiftHeight
    ∧ (PS2TurnRobotOff s).g_InControlState.SLLeg = s.g_InControlState.SLLeg
    ∧ (PS2TurnRobotOff s).g_InControlState.fSLHold = s.g_InControlState.fSLHold
    ∧ (PS2TurnRobotOff s).g_InControlState.ManPos = s.g_InControlState.ManPos
    ∧ (PS2TurnRobotOff s).g_InControlState.ManClos = s.g_InControlState.ManClos
    ∧ (PS2TurnRobotOff s).g_InControlState.TailPos = s.g_InControlState.TailPos
    ∧ (PS2TurnRobotOff s).g_InControlState.InputTimeDelay
        = s.g_InControlState.InputTimeDelay
    ∧ (afterStart (PS2TurnRobotOff s) r).ControlMode = s.ControlMode := by
  refine ⟨rfl, rfl, rfl, rfl, rfl, rfl, rfl, rfl, rfl, rfl, rfl, rfl, rfl, rfl, rfl, rfl, rfl,
    ?_⟩
  rw [afterStart_ControlMode, PS2TurnRobotOff_ControlMode]

/-! ## C22: the strafe under walk method 2 -/

theorem walkMethodButton_WalkMethod_eq (s : State) (r : Inputs) :
    (walkMethodButton s r).WalkMethod
      = if r.ButtonPressed PSB.R3 = true then !s.WalkMethod else s.WalkMethod := by
  unfold walkMethodButton
  split_ifs <;> rfl

theorem doubleTravelButton_DoubleTravelOn_eq (s : State) (r : Inputs) :
    (doubleTravelButton s r).DoubleTravelOn
      = if r.ButtonPressed PSB.R2 = true then !s.DoubleTravelOn else s.DoubleTravelOn := by
  unfold doubleTravelButton
  split_ifs <;> rfl

/-- The strafe at the end of a valid cycle with the hexapod on whose mode
switch leaves walk mode and whose R3 handling leaves walk method 2. -/
theorem walk_method2_x (cfg : Config) (s : State) (r : Inputs)
    (hok : analogModeOK r = true) (hon : (afterStart s r).g_InControlState.fHexOn = true)
    (hmode : (switchModes cfg (afterStart s r) r).ControlMode = WALKMODE)
    (hwm : (if r.ButtonPressed PSB.R3 = true then !s.WalkMethod else s.WalkMethod) = true) :
    (ControlInput cfg s r).g_InControlState.TravelLength.x
      = if (if r.ButtonPressed PSB.R2 = true then !s.DoubleTravelOn else s.DoubleTravelOn)
            = true
        then s.g_InControlState.TravelLength.x
        else Int.tdiv s.g_InControlState.TravelLength.x 2 := by
  have hY : (commonFunctions (switchModes cfg (afterStart s r) r) r).ControlMode
      = WALKMODE := by
    rw [commonFunctions_ControlMode]; exact hmode
  have htl : (afterStart s r).g_InControlState.TravelLength
      = s.g_InControlState.TravelLength := by
    rw [afterStart_of_on s r hon]
  rw [ControlInput_valid cfg s r hok]
  simp only [validCycle, hon, if_true, bodyPosY_TravelLength, hexOn, timeDelay_TravelLength,
    gpPlayerFunctions_TravelLength, singleLegFunctions_TravelLength,
    rotateFunctions_TravelLength, translateFunctions_TravelLength]
  unfold walkFunctions
  rw [if_pos (by simpa using hY), walkSticks_pipeline]
  simp only [walkMethodButton_WalkMethod_eq, walkMethodButton_DoubleTravelOn,
    walkMethodButton_TravelLength, doubleTravelButton_WalkMethod,
    doubleTravelButton_DoubleTravelOn_eq, doubleTravelButton_TravelLength,
    doubleHeightButton_WalkMethod, doubleHeightButton_DoubleTravelOn,
    doubleHeightButton_TravelLength, gaitButton_WalkMethod, gaitButton_DoubleTravelOn,
    gaitButton_TravelLength, commonFunctions_WalkMethod, commonFunctions_DoubleTravelOn,
    commonFunctions_TravelLength, switchModes_WalkMethod, switchModes_DoubleTravelOn,
    switchModes_TravelLength, afterStart_WalkMethod, afterStart_DoubleTravelOn, htl, hwm,
    if_true]

/-- C22. In a valid cycle with the hexapod on whose mode switch leaves walk
mode and whose R3 handling leaves walk method 2, `TravelLength.x` at the end
of the cycle is its previous value when double travel is on after the R2
handling and its previous value divided by 2 (toward zero) otherwise; it is
the same whatever the four stick bytes are. -/
theorem stale_strafe_walk_method2 (cfg : Config) (s : State) (r : Inputs)
    (hok : analogModeOK r = true) (hon : (afterStart s r).g_InControlState.fHexOn = true)
    (hmode : (switchModes cfg (afterStart s r) r).ControlMode = WALKMODE)
    (hwm : (if r.ButtonPressed PSB.R3 = true then !s.WalkMethod else s.WalkMethod) = true) :
    (ControlInput cfg s r).g_InControlState.TravelLength.x
        = (if (if r.ButtonPressed PSB.R2 = true then !s.DoubleTravelOn
                else s.DoubleTravelOn) = true
           then s.g_InControlState.TravelLength.x
           else Int.tdiv s.g_InControlState.TravelLength.x 2)
    ∧ (∀ lx ly rx ry : Nat,
        (ControlInput cfg s (withSticks r lx ly rx ry)).g_InControlState.TravelLength.x
          = (ControlInput cfg s r).g_InControlState.TravelLength.x) := by
  refine ⟨walk_method2_x cfg s r hok hon hmode hwm, ?_⟩
  intro lx ly rx ry
  have hst : afterStart s (withSticks r lx ly rx ry) = afterStart s r := rfl
  have hsw : switchModes cfg (afterStart s r) (withSticks r lx ly rx ry)
      = switchModes cfg (afterStart s r) r := by
    simp [switchModes, switchGPPlayer, switchSingleLeg, switchRotate, switchTranslate,
      withSticks]
  rw [walk_method2_x cfg s r hok hon hmode hwm,
    walk_method2_x cfg s (withSticks r lx ly rx ry) hok (by rw [hst]; exact hon)
      (by rw [hst, hsw]; exact hmode) hwm]
  rfl

/-- Witness for C22: under walk method 2 with double travel on, centred
sticks leave the strafe of -50 in place. -/
theorem stale_strafe_walk_method2_witness :
    analogModeOK idlePacket = true
    ∧ (afterStart staleStrafeState idlePacket).g_InControlState.fHexOn = true
    ∧ staleStrafeState.WalkMethod = true ∧ staleStrafeState.DoubleTravelOn = true
    ∧ staleStrafeState.g_InControlState.TravelLength.x = -50
    ∧ (ControlInput sampleConfig staleStrafeState idlePacket).g_InControlState.TravelLength.x
        = -50 :=
  ⟨by decide, by decide, by decide, by decide, by decide,
    ((stale_strafe_walk_method2 sampleConfig staleStrafeState idlePacket
      (by decide) (by decide) (by decide) (by decide)).1).trans (by decide)⟩

end PS2Controller
